import Mathlib

/-!
Verification development for the attio-mcp server (a protocol-adapter
exposing CRM operations as callable tools).  The Python source is embedded
shallowly: Python values are modelled by `JVal`, Python dicts by ordered
association lists, Python exceptions by `Except String`, and remote HTTP
calls by an oracle `Gateway` together with an explicit log of issued calls.
-/

set_option maxRecDepth 4000

/-- A Python/JSON value as it appears in this code base: `None`, booleans,
integers, strings, lists and (string-keyed) dicts.  Dicts keep insertion
order, as Python dicts do. -/
inductive JVal where
  | null
  | bool (b : Bool)
  | num (n : Int)
  | str (s : String)
  | arr (xs : List JVal)
  | obj (fields : List (String × JVal))
deriving Repr, Inhabited

/-- Python dict with string keys (insertion-ordered association list). -/
abbrev PyDict := List (String × JVal)

mutual
/-- Decidable structural equality on values (Python `==` as this code
base uses it: dict-key comparison). -/
def JVal.decEq : (a b : JVal) → Decidable (a = b)
  | .null, .null => .isTrue rfl
  | .bool a, .bool b =>
    match instDecidableEqBool a b with
    | .isTrue h => .isTrue (by rw [h])
    | .isFalse h => .isFalse (fun e => h (by cases e; rfl))
  | .num a, .num b =>
    match Int.instDecidableEq a b with
    | .isTrue h => .isTrue (by rw [h])
    | .isFalse h => .isFalse (fun e => h (by cases e; rfl))
  | .str a, .str b =>
    match String.decEq a b with
    | .isTrue h => .isTrue (by rw [h])
    | .isFalse h => .isFalse (fun e => h (by cases e; rfl))
  | .arr xs, .arr ys =>
    match JVal.decEqList xs ys with
    | .isTrue h => .isTrue (by rw [h])
    | .isFalse h => .isFalse (fun e => h (by cases e; rfl))
  | .obj fs, .obj gs =>
    match JVal.decEqFields fs gs with
    | .isTrue h => .isTrue (by rw [h])
    | .isFalse h => .isFalse (fun e => h (by cases e; rfl))
  | .null, .bool _ | .null, .num _ | .null, .str _
  | .null, .arr _ | .null, .obj _
  | .bool _, .null | .bool _, .num _ | .bool _, .str _
  | .bool _, .arr _ | .bool _, .obj _
  | .num _, .null | .num _, .bool _ | .num _, .str _
  | .num _, .arr _ | .num _, .obj _
  | .str _, .null | .str _, .bool _ | .str _, .num _
  | .str _, .arr _ | .str _, .obj _
  | .arr _, .null | .arr _, .bool _ | .arr _, .num _
  | .arr _, .str _ | .arr _, .obj _
  | .obj _, .null | .obj _, .bool _ | .obj _, .num _
  | .obj _, .str _ | .obj _, .arr _ => .isFalse (fun e => nomatch e)

def JVal.decEqList : (xs ys : List JVal) → Decidable (xs = ys)
  | [], [] => .isTrue rfl
  | x :: xs, y :: ys =>
    match JVal.decEq x y, JVal.decEqList xs ys with
    | .isTrue h1, .isTrue h2 => .isTrue (by rw [h1, h2])
    | .isFalse h1, _ => .isFalse (fun e => h1 (by cases e; rfl))
    | _, .isFalse h2 => .isFalse (fun e => h2 (by cases e; rfl))
  | [], _ :: _ => .isFalse (fun e => nomatch e)
  | _ :: _, [] => .isFalse (fun e => nomatch e)

def JVal.decEqFields : (xs ys : List (String × JVal)) → Decidable (xs = ys)
  | [], [] => .isTrue rfl
  | (k, v) :: xs, (l, w) :: ys =>
    match String.decEq k l, JVal.decEq v w, JVal.decEqFields xs ys with
    | .isTrue h0, .isTrue h1, .isTrue h2 => .isTrue (by rw [h0, h1, h2])
    | .isFalse h0, _, _ => .isFalse (fun e => h0 (by cases e; rfl))
    | _, .isFalse h1, _ => .isFalse (fun e => h1 (by cases e; rfl))
    | _, _, .isFalse h2 => .isFalse (fun e => h2 (by cases e; rfl))
  | [], _ :: _ => .isFalse (fun e => nomatch e)
  | _ :: _, [] => .isFalse (fun e => nomatch e)
end

instance : DecidableEq JVal := JVal.decEq

/-- Python truthiness: `None`, `False`, `0`, `""`, `[]`, `{}` are falsy. -/
def JVal.truthy : JVal → Bool
  | .null => false
  | .bool b => b
  | .num n => n != 0
  | .str s => !s.isEmpty
  | .arr xs => !xs.isEmpty
  | .obj fs => !fs.isEmpty

/-- Is this value a Python dict? (`isinstance(v, dict)`) -/
def JVal.isObj : JVal → Bool
  | .obj _ => true
  | _ => false

/-- Python hashability of the values JSON can carry: `None`, booleans,
numbers and strings are hashable; lists and dicts are not, and using one
as a dict key (membership test, subscript or assignment) raises
`TypeError`. -/
def JVal.hashable : JVal → Bool
  | .null => true
  | .bool _ => true
  | .num _ => true
  | .str _ => true
  | .arr _ => false
  | .obj _ => false

mutual
/-- Python `repr` of a value (string quoting is approximated with a plain
quote character; enough for the shapes exercised here). -/
def pyRepr : JVal → String
  | .null => "None"
  | .bool b => if b then "True" else "False"
  | .num n => toString n
  | .str s => String.singleton (Char.ofNat 39) ++ s ++ String.singleton (Char.ofNat 39)
  | .arr xs => "[" ++ pyReprList xs ++ "]"
  | .obj fs => "\x7b" ++ pyReprFields fs ++ "\x7d"

def pyReprList : List JVal → String
  | [] => ""
  | [x] => pyRepr x
  | x :: xs => pyRepr x ++ ", " ++ pyReprList xs

def pyReprFields : List (String × JVal) → String
  | [] => ""
  | [(k, v)] => String.singleton (Char.ofNat 39) ++ k ++ String.singleton (Char.ofNat 39) ++ ": " ++ pyRepr v
  | (k, v) :: fs => String.singleton (Char.ofNat 39) ++ k ++ String.singleton (Char.ofNat 39) ++ ": " ++ pyRepr v ++ ", " ++ pyReprFields fs
end

/-- Python `str()` of a value. -/
def pyStr : JVal → String
  | .null => "None"
  | .bool b => if b then "True" else "False"
  | .num n => toString n
  | .str s => s
  | .arr xs => pyRepr (.arr xs)
  | .obj fs => pyRepr (.obj fs)

/-- Dict lookup (`d[k]` when present, `None`-free): first binding wins;
Python dicts have unique keys so this is the binding. -/
def pyLookup (d : PyDict) (k : String) : Option JVal :=
  match d with
  | [] => none
  | (k', v) :: d' => if k' = k then some v else pyLookup d' k

/-- `k in d` for a dict. -/
def pyContains (d : PyDict) (k : String) : Bool :=
  (pyLookup d k).isSome

/-- `d.get(k, default)`. -/
def pyGet (d : PyDict) (k : String) (default : JVal) : JVal :=
  (pyLookup d k).getD default

/-- `d[k]`, raising `KeyError` when absent. -/
def pyGetItem (d : PyDict) (k : String) : Except String JVal :=
  match pyLookup d k with
  | some v => .ok v
  | none => .error ("KeyError: " ++ k)

/-- `d[k] = v`: update in place when the key exists (keeping its position,
as Python dicts do), else append. -/
def pySet (d : PyDict) (k : String) (v : JVal) : PyDict :=
  match d with
  | [] => [(k, v)]
  | (k', v') :: d' => if k' = k then (k', v) :: d' else (k', v') :: pySet d' k v

/-- `v.get(k, default)` on a value that should be a dict; a non-dict raises
`AttributeError` (as `.get` does in Python). -/
def pyDictGet (v : JVal) (k : String) (default : JVal) : Except String JVal :=
  match v with
  | .obj fs => .ok (pyGet fs k default)
  | _ => .error "AttributeError: get"

/-- Dict with `JVal` keys (used for the resolved-name map, which is keyed
by raw parent-record-id values). -/
abbrev PyDictJ := List (JVal × JVal)

/-- Association-list search once the key has been hashed. -/
def pyFindJ (d : PyDictJ) (k : JVal) : Option JVal :=
  match d with
  | [] => none
  | (k', v) :: d' => if k' = k then some v else pyFindJ d' k

/-- `k in d` / key probing on the JVal-keyed dict: Python hashes the key
first, so an unhashable key raises `TypeError` even on an empty dict. -/
def pyLookupJ (d : PyDictJ) (k : JVal) : Except String (Option JVal) :=
  if k.hashable then .ok (pyFindJ d k) else .error "TypeError: unhashable type"

/-- In-place store once the key has been hashed (existing key keeps its
position, new key appended, as Python dicts do). -/
def pyStoreJ (d : PyDictJ) (k : JVal) (v : JVal) : PyDictJ :=
  match d with
  | [] => [(k, v)]
  | (k', v') :: d' => if k' = k then (k', v) :: d' else (k', v') :: pyStoreJ d' k v

/-- `d[k] = v` on the JVal-keyed dict: raises `TypeError` on an
unhashable key. -/
def pySetJ (d : PyDictJ) (k : JVal) (v : JVal) : Except String PyDictJ :=
  if k.hashable then .ok (pyStoreJ d k v) else .error "TypeError: unhashable type"

/-- `names.get(k, default)` on the JVal-keyed dict (hashes the key, like
membership, so an unhashable key raises). -/
def pyGetJ (d : PyDictJ) (k : JVal) (default : JVal) : Except String JVal :=
  match pyLookupJ d k with
  | .ok r => .ok (r.getD default)
  | .error e => .error e

/-! ## formatting.py — `extract_value` -/

/-- The fixed priority list of plain string-carrying keys tried first by
`extract_value` (formatting.py lines 7-16). -/
def priorityKeys : List String :=
  ["display_value", "full_name", "value", "email_address", "domain", "phone_number"]

/-- The `for key in [...]` loop of `extract_value`: the first key that is
present with a non-`None` value wins. -/
def findPriority (val : PyDict) : List String → Option JVal
  | [] => none
  | k :: ks =>
    match pyLookup val k with
    | some .null => findPriority val ks
    | some v => some v
    | none => findPriority val ks

/-- Tail section of `extract_value`: the target-record-reference check
and the final empty-string fallback (formatting.py lines 33-37). -/
def extractTarget (val : PyDict) : Except String JVal :=
  -- Target record reference
  match pyLookup val "target_record_id" with
  | some tv =>
    if tv.truthy then .ok (.str ("[record:" ++ pyStr tv ++ "]"))
    else .ok (.str "")
  | none => .ok (.str "")

/-- Date section of `extract_value` (formatting.py lines 29-31), falling
through to the target-record check. -/
def extractDate (val : PyDict) : Except String JVal :=
  match pyLookup val "date" with
  | some .null => extractTarget val
  | some dv => .ok (.str (pyStr dv))
  | none => extractTarget val

/-- Currency section of `extract_value` (formatting.py lines 24-27),
falling through to the date check. -/
def extractCurrencyOn (val : PyDict) : Except String JVal :=
  -- Currency
  match pyLookup val "currency_value" with
  | some .null => extractDate val
  | some cv =>
    .ok (.str (pyStr (pyGet val "currency_code" (.str "")) ++ " " ++ pyStr cv))
  | none => extractDate val

/-- Status section of `extract_value` (formatting.py lines 21-22); a
truthy non-dict `status` raises, a dict yields its title (verbatim) with
`str(status)` as default.  Falls through to the currency check. -/
def extractStatusOn (val : PyDict) : Except String JVal :=
  match pyLookup val "status" with
  | some sv =>
    if sv.truthy then
      match sv with
      | .obj fs => .ok (pyGet fs "title" (.str (pyStr sv)))
      | _ => .error "AttributeError: get"
    else extractCurrencyOn val
  | none => extractCurrencyOn val

/-- `extract_value` (formatting.py lines 4-37): pull the display-friendly
value from a single Attio value object.  Faithful to the source, including
the `AttributeError` raised by `.get` when a truthy `option`/`status` is
not a dict, and the option/status branch returning the stored title value
as-is (Python does not convert it to a string there). -/
def extract_value (val : PyDict) : Except String JVal :=
  match findPriority val priorityKeys with
  | some v => .ok (.str (pyStr v))
  | none =>
    -- Nested option/status
    match pyLookup val "option" with
    | some ov =>
      if ov.truthy then
        match ov with
        | .obj fs => .ok (pyGet fs "title" (.str (pyStr ov)))
        | _ => .error "AttributeError: get"
      else extractStatusOn val
    | none => extractStatusOn val

/-- `", ".join(parts)`: joining raises `TypeError` when a part is not a
string. -/
def pyJoin (sep : String) (parts : List JVal) : Except String String :=
  match parts with
  | [] => .ok ""
  | [JVal.str s] => .ok s
  | JVal.str s :: rest =>
    match pyJoin sep rest with
    | .ok r => .ok (s ++ sep ++ r)
    | .error e => .error e
  | _ => .error "TypeError: join"

/-- The comprehension `[extract_value(v) for v in values if extract_value(v)]`
of `extract_values`.  Elements that are not dicts are modelled as a
`TypeError` (membership tests on non-dicts do not behave like dict
probing). -/
def extractParts : List JVal → Except String (List JVal)
  | [] => .ok []
  | v :: vs =>
    match v with
    | .obj fs =>
      match extract_value fs with
      | .ok r =>
        match extractParts vs with
        | .ok rest => .ok (if r.truthy then r :: rest else rest)
        | .error e => .error e
      | .error e => .error e
    | _ => .error "TypeError: not a value object"

/-- `extract_values` (formatting.py lines 40-45): extract from a list of
value objects, joining with `", "`.  A falsy argument (including a
non-list) short-circuits to `""`; a truthy non-list raises. -/
def extract_values (values : JVal) : Except String String :=
  if values.truthy then
    match values with
    | .arr xs =>
      match extractParts xs with
      | .ok parts => pyJoin ", " parts
      | .error e => .error e
    | _ => .error "TypeError: not iterable"
  else .ok ""

/-! ## Remote gateway model (client.py, consumed as an oracle)

A remote call is recorded as method/path/query-params/body.  The oracle
`Gateway` decides each call's outcome: a decoded JSON body on success, or
the message of the raised exception on failure.  Handlers thread an
explicit log of the calls they issue; a call is logged when issued,
whether or not it succeeds. -/

inductive Method where
  | get | post | put | patch | delete
deriving Repr, DecidableEq

structure GatewayCall where
  method : Method
  path : String
  params : PyDict
  body : JVal
deriving Repr, DecidableEq

abbrev Gateway := GatewayCall → Except String JVal
abbrev CallLog := List GatewayCall

/-! ## Python string helpers -/

/-- `s.lower()` (ASCII: sufficient for the strings this code handles). -/
def pyLower (s : String) : String := ⟨s.data.map Char.toLower⟩

/-- `s.replace(a, b)` for a single-character pattern and replacement (the
only shape this code base uses). -/
def replaceChar (s : String) (a b : Char) : String :=
  ⟨s.data.map (fun c => if c = a then b else c)⟩

/-- `"T" in s` (substring membership of a single character). -/
def containsT (s : String) : Bool := s.data.contains 'T'

/-- Prefix of the character list before the first `'T'`. -/
def takeBeforeT : List Char → List Char
  | [] => []
  | c :: rest => if c = 'T' then [] else c :: takeBeforeT rest

/-- `s.split("T")[0]`. -/
def pySplitHeadT (s : String) : String := ⟨takeBeforeT s.data⟩

/-- `s.startswith(p)`. -/
def strStartsWith (s p : String) : Bool := p.data.isPrefixOf s.data

/-- One step of `str.title()`: a letter is uppercased when the previous
character was not a letter, lowercased otherwise. -/
def pyTitleChars : Bool → List Char → List Char
  | _, [] => []
  | prevAlpha, c :: rest =>
    if c.isAlpha then
      (if prevAlpha then c.toLower else c.toUpper) :: pyTitleChars true rest
    else c :: pyTitleChars false rest

/-- `s.title()`. -/
def pyTitle (s : String) : String := ⟨pyTitleChars false s.data⟩

/-- Characters kept verbatim by the slug regex `[^a-z0-9]+`. -/
def isLowerAlnum (c : Char) : Bool :=
  (decide (Char.ofNat 97 ≤ c) && decide (c ≤ Char.ofNat 122))
    || (decide (Char.ofNat 48 ≤ c) && decide (c ≤ Char.ofNat 57))

/-- `re.sub(r"[^a-z0-9]+", "_", ·)` on the character list: every maximal
run of non-matching characters becomes a single underscore.  The flag
records whether we are inside such a run. -/
def collapseNonAlnum : Bool → List Char → List Char
  | _, [] => []
  | inRun, c :: rest =>
    if isLowerAlnum c then c :: collapseNonAlnum false rest
    else if inRun then collapseNonAlnum true rest
    else Char.ofNat 95 :: collapseNonAlnum true rest

def reSubNonAlnum (s : String) : String := ⟨collapseNonAlnum false s.data⟩

/-- `s.strip("_")`. -/
def pyStripUnderscores (s : String) : String :=
  ⟨((s.data.dropWhile (· == Char.ofNat 95)).reverse.dropWhile (· == Char.ofNat 95)).reverse⟩

/-- The slug derivation of `_create_list` (tools_lists.py line 189):
`re.sub(r"[^a-z0-9]+", "_", name.lower()).strip("_")`. -/
def listSlug (name : String) : String :=
  pyStripUnderscores (reSubNonAlnum (pyLower name))

/-- The slug derivation of `_create_attribute` (tools_schema.py line 179):
`title.lower().replace(" ", "_").replace("-", "_")`. -/
def attributeSlug (title : String) : String :=
  replaceChar (replaceChar (pyLower title) (Char.ofNat 32) (Char.ofNat 95)) (Char.ofNat 45) (Char.ofNat 95)

/-! ## tools_records.py — `_format_write_values` -/

/-- `_format_write_values` (tools_records.py lines 383-395): both branches
of the `isinstance(val, list)` test store `val` unchanged. -/
def _format_write_values (values : PyDict) : PyDict :=
  values.foldl
    (fun formatted kv =>
      match kv.2 with
      | .arr xs => pySet formatted kv.1 (.arr xs)
      | v => pySet formatted kv.1 v)
    []

/-! ## formatting.py — `format_task` (needed by `_list_tasks`) -/

/-- Python slicing `v[:n]` as used on `content`/`deadline`: strings and
lists slice; other truthy values are not subscriptable. -/
def pySlice (v : JVal) (n : Nat) : Except String JVal :=
  match v with
  | .str s => .ok (.str ⟨s.data.take n⟩)
  | .arr xs => .ok (.arr (xs.take n))
  | _ => .error "TypeError: not subscriptable"

/-- The comprehension `[a.get("name", a.get("email_address", "")) for a in assignees]`. -/
def assigneeNames : List JVal → Except String (List JVal)
  | [] => .ok []
  | a :: rest =>
    match a with
    | .obj fs =>
      match assigneeNames rest with
      | .ok tail => .ok (pyGet fs "name" (pyGet fs "email_address" (.str "")) :: tail)
      | .error e => .error e
    | _ => .error "AttributeError: get"

/-- The comprehension `[lr.get("target_record_id", "") for lr in linked]`. -/
def linkedIds : List JVal → Except String (List JVal)
  | [] => .ok []
  | lr :: rest =>
    match lr with
    | .obj fs =>
      match linkedIds rest with
      | .ok tail => .ok (pyGet fs "target_record_id" (.str "") :: tail)
      | .error e => .error e
    | _ => .error "AttributeError: get"

/-- `format_task` (formatting.py lines 161-185). -/
def format_task (task : JVal) : Except String String :=
  match task with
  | .obj t => do
    let content := pyGet t "content_plaintext" (pyGet t "content" (.str "(no content)"))
    let deadline := pyGet t "deadline_at" (.str "")
    let completed := pyGet t "is_completed" (.bool false)
    let task_id0 := pyGet t "id" (.str "")
    let task_id : JVal :=
      match task_id0 with
      | .obj fs => pyGet fs "task_id" (.str (pyStr (.obj fs)))
      | v => v
    let status := if completed.truthy then "Done" else "Open"
    let line0 := "Task: " ++ pyStr content ++ " [" ++ status ++ "] (ID: " ++ pyStr task_id ++ ")"
    let lines1 ←
      if deadline.truthy then do
        let d ← pySlice deadline 10
        pure [line0, "  Deadline: " ++ pyStr d]
      else pure [line0]
    let assignees := pyGet t "assignees" (.arr [])
    let lines2 ←
      if assignees.truthy then
        match assignees with
        | .arr as => do
          let names ← assigneeNames as
          let joined ← pyJoin ", " (names.filter JVal.truthy)
          pure (lines1 ++ ["  Assigned to: " ++ joined])
        | _ => .error "TypeError: not iterable"
      else pure lines1
    let linked := pyGet t "linked_records" (.arr [])
    let lines3 ←
      if linked.truthy then
        match linked with
        | .arr ls => do
          let links ← linkedIds ls
          let joined ← pyJoin ", " links
          pure (lines2 ++ ["  Linked records: " ++ joined])
        | _ => .error "TypeError: not iterable"
      else pure lines2
    pure (String.intercalate "\n" lines3)
  | _ => .error "AttributeError: get"

/-! ## tools_tasks.py — handlers -/

/-- `_create_task` (tools_tasks.py lines 110-133).  A supplied truthy
`deadline_at` containing `"T"` is truncated at the first `"T"` before the
body is built. -/
def _create_task (args : PyDict) (gw : Gateway) (log : CallLog) :
    Except String String × CallLog :=
  match pyGetItem args "content" with
  | .error e => (.error e, log)
  | .ok content =>
    let data0 : PyDict :=
      [("content", content), ("format", .str "plaintext"),
       ("is_completed", pyGet args "is_completed" (.bool false)),
       ("linked_records", pyGet args "linked_records" (.arr [])),
       ("assignees", pyGet args "assignees" (.arr []))]
    let dlv := pyGet args "deadline_at" .null
    let dataR : Except String PyDict :=
      if dlv.truthy then
        match dlv with
        | .str s =>
          let dl := if containsT s then pySplitHeadT s else s
          .ok (pySet data0 "deadline_at" (.str dl))
        | _ => .error "TypeError: argument of type is not iterable"
      else .ok data0
    match dataR with
    | .error e => (.error e, log)
    | .ok data1 =>
      let call : GatewayCall := ⟨.post, "/tasks", [], .obj [("data", .obj data1)]⟩
      let log := log ++ [call]
      match gw call with
      | .error e => (.error e, log)
      | .ok resp =>
        let out : Except String String := do
          let task ← pyDictGet resp "data" resp
          let task_id0 ← pyDictGet task "id" (.obj [])
          let task_id : JVal :=
            match task_id0 with
            | .obj fs => pyGet fs "task_id" (.str (pyStr (.obj fs)))
            | v => v
          let c80 ← pySlice content 80
          pure ("Created task: " ++ pyStr c80 ++ " (ID: " ++ pyStr task_id ++ ")")
        (out, log)

/-- `_list_tasks` (tools_tasks.py lines 136-154).  The linked-record
filter parameters are added only when both are truthy. -/
def _list_tasks (args : PyDict) (gw : Gateway) (log : CallLog) :
    Except String String × CallLog :=
  let params0 : PyDict := [("limit", pyGet args "limit" (.num 50))]
  let params1 :=
    if (pyGet args "linked_object" .null).truthy
        && (pyGet args "linked_record_id" .null).truthy then
      pySet (pySet params0 "linked_object" (pyGet args "linked_object" .null))
        "linked_record_id" (pyGet args "linked_record_id" .null)
    else params0
  let params2 :=
    if pyContains args "is_completed" then
      pySet params1 "is_completed" (.str (pyLower (pyStr (pyGet args "is_completed" .null))))
    else params1
  let call : GatewayCall := ⟨.get, "/tasks", params2, .null⟩
  let log := log ++ [call]
  match gw call with
  | .error e => (.error e, log)
  | .ok resp =>
    let out : Except String String := do
      let tasks ← pyDictGet resp "data" (.arr [])
      if !tasks.truthy then pure "No tasks found."
      else
        match tasks with
        | .arr ts => do
          let body ← ts.foldlM (fun acc t => do
            let line ← format_task t
            pure (acc ++ [line, ""])) []
          pure (String.intercalate "\n" (("Tasks (" ++ toString ts.length ++ "):") :: body))
        | _ => .error "TypeError: no len"
    (out, log)

/-- `_update_task` (tools_tasks.py lines 157-172).  Note: `deadline_at`
is copied into the body verbatim, with no truncation. -/
def _update_task (args : PyDict) (gw : Gateway) (log : CallLog) :
    Except String String × CallLog :=
  match pyGetItem args "task_id" with
  | .error e => (.error e, log)
  | .ok task_id =>
    let d0 : PyDict := []
    let d1 :=
      if pyContains args "content" then
        pySet (pySet d0 "content" (pyGet args "content" .null)) "format" (.str "plaintext")
      else d0
    let d2 :=
      if pyContains args "deadline_at" then
        pySet d1 "deadline_at" (pyGet args "deadline_at" .null)
      else d1
    let d3 :=
      if pyContains args "is_completed" then
        pySet d2 "is_completed" (pyGet args "is_completed" .null)
      else d2
    let call : GatewayCall := ⟨.patch, "/tasks/" ++ pyStr task_id, [], .obj [("data", .obj d3)]⟩
    let log := log ++ [call]
    match gw call with
    | .error e => (.error e, log)
    | .ok resp =>
      let out : Except String String := do
        let task ← pyDictGet resp "data" resp
        let content0 ← pyDictGet task "content" (.str "")
        let content ← pyDictGet task "content_plaintext" content0
        let c80 ← pySlice content 80
        pure ("Updated task: " ++ pyStr c80)
      (out, log)

/-! ## formatting.py — `format_list_entry` -/

/-- Attribute label: `attr.replace("_", " ").replace("-", " ").title()`. -/
def attrLabel (attr : String) : String :=
  pyTitle (replaceChar (replaceChar attr (Char.ofNat 95) (Char.ofNat 32)) (Char.ofNat 45) (Char.ofNat 32))

/-- The attribute keys skipped by `format_list_entry`. -/
def entrySkipAttrs : List String := ["entry_id", "owner", "created_by", "created_at"]

/-- The `for attr, vals in values.items()` loop of `format_list_entry`:
one `"<Label>: <display>"` part per attribute whose extraction is
non-empty and not a record-reference sentinel. -/
def entryParts : List (String × JVal) → Except String (List String)
  | [] => .ok []
  | (attr, vals) :: rest =>
    if attr ∈ entrySkipAttrs then entryParts rest
    else
      match extract_values vals with
      | .error e => .error e
      | .ok display =>
        match entryParts rest with
        | .error e => .error e
        | .ok tail =>
          .ok (if !display.isEmpty && !(strStartsWith display "[record:") then
                (attrLabel attr ++ ": " ++ display) :: tail
              else tail)

/-- `format_list_entry` (formatting.py lines 113-139).  `record_names` is
the resolved-name map (keyed by raw parent-record-id values); the Python
`None` default and an empty dict are both falsy, so the empty list models
both. -/
def format_list_entry (entry : PyDict) (index : Nat) (record_names : PyDictJ) :
    Except String String :=
  let entry_id0 := pyGet entry "entry_id" .null
  let entry_id1 := if entry_id0.truthy then entry_id0 else pyGet entry "id" (.obj [])
  let _entry_id : JVal :=  -- computed by the source but unused in its output
    match entry_id1 with
    | .obj fs => pyGet fs "entry_id" (.str (pyStr (.obj fs)))
    | v => v
  let parent_record_id := pyGet entry "parent_record_id" (.str "")
  let values := pyGet entry "entry_values" (pyGet entry "values" (.obj []))
  match (if !record_names.isEmpty && parent_record_id.truthy then
           pyGetJ record_names parent_record_id (.str "")
         else .ok (.str "")) with
  | .error e => .error e
  | .ok name =>
    let first := toString index ++ ". " ++ pyStr (if name.truthy then name else parent_record_id)
    match values with
    | .obj fs =>
      match entryParts fs with
      | .ok parts => .ok (String.intercalate " — " (first :: parts))
      | .error e => .error e
    | _ => .error "AttributeError: items"

/-! ## tools_lists.py — handlers -/

/-- The single-quote character, used in the source's f-strings. -/
def sqc : String := String.singleton (Char.ofNat 39)

/-- The `try:`-block body of `_resolve_parent_names` for one record id:
fetch the record and look for a non-empty `name`/`full_name` extraction.
Returns the found name, or `none` when the lookup succeeds but neither
key yields a non-empty name. -/
def resolveTryBody (data : JVal) : Except String (Option String) := do
  let record ← pyDictGet data "data" data
  let values ← pyDictGet record "values" (.obj [])
  match values with
  | .obj fs =>
    match pyLookup fs "name" with
    | some v => do
      let n ← extract_values v
      if !n.isEmpty then pure (some n)
      else
        match pyLookup fs "full_name" with
        | some w => do
          let m ← extract_values w
          if !m.isEmpty then pure (some m) else pure none
        | none => pure none
    | none =>
      match pyLookup fs "full_name" with
      | some w => do
        let m ← extract_values w
        if !m.isEmpty then pure (some m) else pure none
      | none => pure none
  | _ => .error "TypeError: not a dict"

/-- One iteration of the lookup loop of `_resolve_parent_names`: issue the
record GET; on any exception in the try block (remote failure, malformed
response, or a `TypeError` from `names[rid] = name`), the except clause
falls back to `names[rid] = rid` — which itself raises and propagates
when `rid` is unhashable. -/
def resolveOne (gw : Gateway) (obj rid : JVal) (names : PyDictJ) (log : CallLog) :
    Except String PyDictJ × CallLog :=
  let call : GatewayCall :=
    ⟨.get, "/objects/" ++ pyStr obj ++ "/records/" ++ pyStr rid, [], .null⟩
  let log := log ++ [call]
  let attempt : Except String PyDictJ := do
    let nm ← resolveTryBody (← gw call)
    match nm with
    | some name => pySetJ names rid (.str name)
    | none => pure names
  match attempt with
  | .ok names2 => (.ok names2, log)
  | .error _ =>
    match pySetJ names rid rid with
    | .ok names2 => (.ok names2, log)
    | .error e => (.error e, log)

/-- `by_object.setdefault(obj, []).append(rid)`. -/
def addToGroup (g : List (JVal × List JVal)) (obj rid : JVal) : List (JVal × List JVal) :=
  match g with
  | [] => [(obj, [rid])]
  | (o, rids) :: rest =>
    if o = obj then (o, rids ++ [rid]) :: rest
    else (o, rids) :: addToGroup rest obj rid

/-- The grouping loop of `_resolve_parent_names`.  `names` is the (still
empty) resolved-name dict; the guard `rid not in names` is embedded as
written and, like Python, hashes the key: a truthy unhashable
`parent_record_id` raises `TypeError` here, outside any `try`, and so
does a truthy unhashable `parent_object` when `setdefault` uses it as
the `by_object` key.  A non-dict entry makes `entry.get` raise, also
outside any `try`. -/
def groupEntries (names : PyDictJ) (g : List (JVal × List JVal)) :
    List JVal → Except String (List (JVal × List JVal))
  | [] => .ok g
  | entry :: rest =>
    match entry with
    | .obj fs =>
      let obj := pyGet fs "parent_object" (.str "")
      let rid := pyGet fs "parent_record_id" (.str "")
      if obj.truthy && rid.truthy then
        match pyLookupJ names rid with
        | .error e => .error e
        | .ok (some _) => groupEntries names g rest
        | .ok none =>
          if obj.hashable then groupEntries names (addToGroup g obj rid) rest
          else .error "TypeError: unhashable type"
      else groupEntries names g rest
    | _ => .error "AttributeError: get"

/-- `_resolve_parent_names` (tools_lists.py lines 235-260): batch-resolve
parent record ids to names.  A propagating exception stops the loops:
once the accumulator carries an error, later iterations issue no call. -/
def _resolve_parent_names (gw : Gateway) (entries : List JVal) (log : CallLog) :
    Except String PyDictJ × CallLog :=
  match groupEntries [] [] entries with
  | .error e => (.error e, log)
  | .ok by_object =>
    by_object.foldl
      (fun (acc : Except String PyDictJ × CallLog) grp =>
        grp.2.foldl
          (fun (acc2 : Except String PyDictJ × CallLog) rid =>
            match acc2.1 with
            | .error _ => acc2
            | .ok names => resolveOne gw grp.1 rid names acc2.2)
          acc)
      (.ok [], log)

/-- `_query_entries` (tools_lists.py lines 210-232), the handler of
`query_list_entries`. -/
def _query_entries (args : PyDict) (gw : Gateway) (log : CallLog) :
    Except String String × CallLog :=
  match pyGetItem args "list_id" with
  | .error e => (.error e, log)
  | .ok list_id =>
    let limit := pyGet args "limit" (.num 50)
    let body0 : PyDict := [("limit", limit)]
    let body1 := if (pyGet args "filter" .null).truthy then
        pySet body0 "filter" (pyGet args "filter" .null)
      else body0
    let body2 := if (pyGet args "sorts" .null).truthy then
        pySet body1 "sorts" (pyGet args "sorts" .null)
      else body1
    let call : GatewayCall :=
      ⟨.post, "/lists/" ++ pyStr list_id ++ "/entries/query", [], .obj body2⟩
    let log := log ++ [call]
    match gw call with
    | .error e => (.error e, log)
    | .ok resp =>
      match pyDictGet resp "data" (.arr []) with
      | .error e => (.error e, log)
      | .ok entriesV =>
        if !entriesV.truthy then
          (.ok ("No entries in list " ++ sqc ++ pyStr list_id ++ sqc ++ "."), log)
        else
          match entriesV with
          | .arr entries =>
            match _resolve_parent_names gw entries log with
            | (.error e, log') => (.error e, log')
            | (.ok record_names, log') =>
              let header := "List " ++ sqc ++ pyStr list_id ++ sqc ++ " ("
                ++ toString entries.length ++ " entries):"
              let linesR := entries.enum.foldlM
                (fun (acc : List String) (p : Nat × JVal) => do
                  match p.2 with
                  | .obj e => do
                    let line ← format_list_entry e (p.1 + 1) record_names
                    pure (acc ++ [line])
                  | _ => Except.error "AttributeError: get")
                [header]
              match linesR with
              | .ok lines => (.ok (String.intercalate "\n" lines), log')
              | .error e => (.error e, log')
          | _ => (.error "TypeError: not iterable", log)

/-- `_create_list` (tools_lists.py lines 180-199).  When `api_slug` is
missing or falsy the slug is derived from the name with the regex
collapse-and-strip derivation. -/
def _create_list (args : PyDict) (gw : Gateway) (log : CallLog) :
    Except String String × CallLog :=
  match pyGetItem args "name" with
  | .error e => (.error e, log)
  | .ok name =>
    let parent := pyGet args "parent_object" (.str "companies")
    let access := pyGet args "workspace_access" (.str "full-access")
    let slug0 := pyGet args "api_slug" (.str "")
    let slugR : Except String JVal :=
      if slug0.truthy then .ok slug0
      else
        match name with
        | .str s => .ok (.str (listSlug s))
        | _ => .error "AttributeError: lower"
    match slugR with
    | .error e => (.error e, log)
    | .ok slug =>
      let body : JVal := .obj [("data", .obj
        [("name", name), ("api_slug", slug), ("parent_object", parent),
         ("workspace_access", access), ("workspace_member_access", .arr [])])]
      let call : GatewayCall := ⟨.post, "/lists", [], body⟩
      let log := log ++ [call]
      match gw call with
      | .error e => (.error e, log)
      | .ok resp =>
        let out : Except String String := do
          let lst ← pyDictGet resp "data" resp
          let list_id0 ← pyDictGet lst "id" (.obj [])
          let list_id : JVal :=
            match list_id0 with
            | .obj fs => pyGet fs "list_id" (.str (pyStr (.obj fs)))
            | v => v
          let actual_slug ← pyDictGet lst "api_slug" slug
          pure ("Created list: " ++ pyStr name ++ " (ID: " ++ pyStr list_id
            ++ ", slug: " ++ pyStr actual_slug ++ ")")
        (out, log)

/-! ## tools_schema.py — `_create_attribute` -/

/-- `_create_attribute` (tools_schema.py lines 174-203).  When `api_slug`
is missing or falsy the slug is derived from the title by lower-casing
and replacing spaces and hyphens with underscores (no run collapsing, no
trimming, other punctuation kept). -/
def _create_attribute (args : PyDict) (gw : Gateway) (log : CallLog) :
    Except String String × CallLog :=
  match pyGetItem args "target", pyGetItem args "target_id" with
  | .error e, _ => (.error e, log)
  | _, .error e => (.error e, log)
  | .ok target, .ok target_id =>
    let slug0 := pyGet args "api_slug" .null
    let slugR : Except String JVal :=
      if slug0.truthy then .ok slug0
      else
        match pyGetItem args "title" with
        | .error e => .error e
        | .ok (.str t) => .ok (.str (attributeSlug t))
        | .ok _ => .error "AttributeError: lower"
    match slugR, pyGetItem args "title", pyGetItem args "type" with
    | .error e, _, _ => (.error e, log)
    | _, .error e, _ => (.error e, log)
    | _, _, .error e => (.error e, log)
    | .ok slug, .ok title, .ok ty =>
      let desc0 := pyGet args "description" .null
      let desc := if desc0.truthy then desc0 else .null
      let config0 := pyGet args "config" .null
      let config := if config0.truthy then config0 else .obj []
      let data0 : PyDict :=
        [("title", title), ("api_slug", slug), ("type", ty), ("description", desc),
         ("is_required", pyGet args "is_required" (.bool false)),
         ("is_unique", pyGet args "is_unique" (.bool false)),
         ("is_multiselect", pyGet args "is_multiselect" (.bool false)),
         ("config", config)]
      let rel := pyGet args "relationship" .null
      let data1 := if rel.truthy then pySet data0 "relationship" rel else data0
      let dcc := pyGet args "default_currency_code" .null
      let dataR : Except String PyDict :=
        if dcc.truthy then
          match pyGet data1 "config" (.obj []) with
          | .obj cfg =>
            .ok (pySet data1 "config"
              (.obj (pySet cfg "currency" (.obj [("default_currency_code", dcc)]))))
          | _ => .error "TypeError: item assignment"
        else .ok data1
      match dataR with
      | .error e => (.error e, log)
      | .ok data2 =>
        let call : GatewayCall :=
          ⟨.post, "/" ++ pyStr target ++ "/" ++ pyStr target_id ++ "/attributes", [],
           .obj [("data", .obj data2)]⟩
        let log := log ++ [call]
        match gw call with
        | .error e => (.error e, log)
        | .ok resp =>
          let out : Except String String := do
            let attr ← pyDictGet resp "data" resp
            let slug2 ← pyDictGet attr "api_slug" (.str "")
            let title2 ← pyDictGet attr "title" title
            pure ("Created attribute: " ++ pyStr title2 ++ " (slug: " ++ pyStr slug2
              ++ ", type: " ++ pyStr ty ++ ")")
          (out, log)

/-! ## server.py — tool registry and dispatcher -/

/-- The tool names declared by `tools_records.TOOLS` (tools_records.py). -/
def tools_records_names : List String :=
  ["search_records", "get_record", "create_or_update_record", "update_record",
   "list_record_entries", "query_records", "get_attribute_history", "delete_record"]

/-- The tool names declared by `tools_lists.TOOLS` (tools_lists.py). -/
def tools_lists_names : List String :=
  ["list_lists", "create_list", "query_list_entries", "create_or_update_entry",
   "delete_entry", "archive_list"]

/-- The tool names declared by `tools_schema.TOOLS` (tools_schema.py). -/
def tools_schema_names : List String :=
  ["list_attributes", "create_attribute", "list_select_options", "create_select_option"]

/-- The tool names declared by `tools_notes.TOOLS` (tools_notes.py). -/
def tools_notes_names : List String :=
  ["create_note", "list_notes", "delete_note"]

/-- The tool names declared by `tools_tasks.TOOLS` (tools_tasks.py). -/
def tools_tasks_names : List String :=
  ["create_task", "list_tasks", "update_task"]

/-- `ALL_TOOLS` (server.py lines 19-25), projected to the registered tool
names: the concatenation of the five modules' tool lists. -/
def ALL_TOOL_NAMES : List String :=
  tools_records_names ++ tools_lists_names ++ tools_schema_names
    ++ tools_notes_names ++ tools_tasks_names

/-- A tool handler as `call_tool` consumes it: the module-level `handle`
functions take the tool name and the argument dict, may call the remote
gateway, and either return a text result or raise. -/
abbrev Handler := String → PyDict → Gateway → CallLog → Except String String × CallLog

/-- The `HANDLERS` dict construction (server.py lines 28-38): each tool
name maps to its module's `handle` function, modules in registration
order.  Tool names are unique across modules, so the dict is the
concatenation. -/
def mkHandlers (hRecords hLists hSchema hNotes hTasks : Handler) : List (String × Handler) :=
  tools_records_names.map (fun n => (n, hRecords))
    ++ tools_lists_names.map (fun n => (n, hLists))
    ++ tools_schema_names.map (fun n => (n, hSchema))
    ++ tools_notes_names.map (fun n => (n, hNotes))
    ++ tools_tasks_names.map (fun n => (n, hTasks))

/-- `HANDLERS.get(name)`. -/
def lookupHandler (handlers : List (String × Handler)) (name : String) : Option Handler :=
  match handlers with
  | [] => none
  | (n, h) :: rest => if n = name then some h else lookupHandler rest name

/-- One text content item of the tool-invocation protocol. -/
structure TextContent where
  type : String
  text : String
deriving Repr, DecidableEq

/-- The payload coercion of `call_tool` (server.py lines 56-57): a
non-dict argument payload becomes the empty dict. -/
def coerceArgs : JVal → PyDict
  | .obj fs => fs
  | _ => []

/-- `call_tool` (server.py lines 53-68): coerce a non-dict payload to an
empty dict, dispatch by name, and convert any raised exception —
including the `ValueError` for an unknown tool — into a single
`"Error: "`-prefixed text result. -/
def call_tool (handlers : List (String × Handler)) (gw : Gateway) (name : String)
    (arguments : JVal) (log : CallLog) : List TextContent × CallLog :=
  let args : PyDict := coerceArgs arguments
  match lookupHandler handlers name with
  | none => ([⟨"text", "Error: Unknown tool: " ++ name⟩], log)
  | some h =>
    match h name args gw log with
    | (.ok result, log') => ([⟨"text", result⟩], log')
    | (.error e, log') => ([⟨"text", "Error: " ++ e⟩], log')

/-! ## Concrete gateways and inputs used by the closed theorems -/

/-- A gateway whose every call succeeds with an empty JSON object. -/
def gwEmpty : Gateway := fun _ => .ok (.obj [])

/-- A gateway whose every call fails with a remote error. -/
def gwFail : Gateway := fun _ => .error "HTTP 500: Internal Server Error"

/-- A list entry whose parent is company record `r1`. -/
def entryR1 : JVal :=
  .obj [("parent_object", .str "companies"), ("parent_record_id", .str "r1")]

/-- A list entry whose parent is company record `r2`. -/
def entryR2 : JVal :=
  .obj [("parent_object", .str "companies"), ("parent_record_id", .str "r2")]

/-- A record-fetch response whose name extracts to `"Acme"`. -/
def acmeRecord : JVal :=
  .obj [("data", .obj [("values", .obj
    [("name", .arr [.obj [("value", .str "Acme")]])])])]

/-- A gateway on which every record lookup succeeds with `acmeRecord`. -/
def gwAcme : Gateway := fun _ => .ok acmeRecord

/-- A list entry whose parent record id is a (truthy) list — an
unhashable dict key, so Python raises `TypeError` on `rid not in names`
during grouping. -/
def entryBadRid : JVal :=
  .obj [("parent_object", .str "companies"), ("parent_record_id", .arr [.str "x"])]

/-- The create-attribute payload of the slug example: a punctuated title
and no explicit slug. -/
def coolTitleArgs : PyDict :=
  [("target", .str "objects"), ("target_id", .str "companies"),
   ("title", .str "My Cool List!!"), ("type", .str "text")]

/-- A gateway for the full query-entries pipeline: the entries query
(a POST) returns the two entries above; the record lookup succeeds for
`r1` and fails for `r2`. -/
def gwDemo : Gateway := fun c =>
  if c.method = .post then .ok (.obj [("data", .arr [entryR1, entryR2])])
  else if c.path = "/objects/companies/records/r1" then .ok acmeRecord
  else .error "HTTP 404: Not Found"

/-- The key is absent from the value object or bound to `None`: the
condition under which the priority loop of `extract_value` passes over
the key. -/
def absentOrNull (val : PyDict) (k : String) : Prop :=
  pyLookup val k = none ∨ pyLookup val k = some .null

/-- The key, if present, is bound to a falsy value: the condition under
which the `option`/`status`/`target_record_id` checks pass over. -/
def noTruthyAt (val : PyDict) (k : String) : Prop :=
  ∀ v, pyLookup val k = some v → v.truthy = false

/-- All six priority string keys are passed over. -/
def priorityMiss (val : PyDict) : Prop :=
  ∀ k ∈ priorityKeys, absentOrNull val k

/-- Every entry of the batch whose parent fields are both truthy carries
hashable parent identifiers — the batches on which the grouping loop of
`_resolve_parent_names` does not raise `TypeError`. -/
def entriesResolvable (entries : List JVal) : Prop :=
  ∀ fs, JVal.obj fs ∈ entries →
    (pyGet fs "parent_object" (.str "")).truthy = true →
    (pyGet fs "parent_record_id" (.str "")).truthy = true →
    (pyGet fs "parent_record_id" (.str "")).hashable = true
      ∧ (pyGet fs "parent_object" (.str "")).hashable = true

/-! # Dictionary lemmas shared by the claim proofs -/

theorem pyLookup_set_self (d : PyDict) (k : String) (v : JVal) :
    pyLookup (pySet d k v) k = some v := by
  induction d with
  | nil => simp [pySet, pyLookup]
  | cons kv d ih =>
    obtain ⟨k', v'⟩ := kv
    by_cases h : k' = k
    · simp [pySet, h, pyLookup]
    · simp [pySet, h, pyLookup, ih]

theorem pyLookup_set_ne (d : PyDict) (k k' : String) (v : JVal) (h : k ≠ k') :
    pyLookup (pySet d k v) k' = pyLookup d k' := by
  induction d with
  | nil => simp [pySet, pyLookup, h]
  | cons kv d ih =>
    obtain ⟨k'', v''⟩ := kv
    by_cases h2 : k'' = k
    · subst h2
      simp [pySet, pyLookup, h]
    · simp [pySet, h2, pyLookup, ih]

theorem pySet_eq_append (d : PyDict) (k : String) (v : JVal)
    (h : pyLookup d k = none) : pySet d k v = d ++ [(k, v)] := by
  induction d with
  | nil => simp [pySet]
  | cons kv d ih =>
    obtain ⟨k', v'⟩ := kv
    by_cases h2 : k' = k
    · simp [pyLookup, h2] at h
    · simp only [pyLookup, if_neg h2] at h
      simp [pySet, h2, ih h]

theorem pyLookup_append_of_none (a b : PyDict) (k : String)
    (h : pyLookup a k = none) : pyLookup (a ++ b) k = pyLookup b k := by
  induction a with
  | nil => simp
  | cons kv a ih =>
    obtain ⟨k', v'⟩ := kv
    by_cases h2 : k' = k
    · simp [pyLookup, h2] at h
    · simp only [pyLookup, if_neg h2] at h
      simp [pyLookup, h2, ih h]

theorem foldl_pySet_eq_append :
    ∀ (values acc : PyDict),
      (values.map Prod.fst).Nodup →
      (∀ k ∈ values.map Prod.fst, pyLookup acc k = none) →
      values.foldl (fun f kv => pySet f kv.1 kv.2) acc = acc ++ values
  | [], acc, _, _ => by simp
  | (k, v) :: values, acc, hnd, hdisj => by
    simp only [List.foldl_cons]
    rw [pySet_eq_append acc k v (hdisj k (by simp))]
    rw [foldl_pySet_eq_append values (acc ++ [(k, v)])
      (by simpa using hnd.of_cons)
      (by
        intro k' hk'
        have hk'a : pyLookup acc k' = none := hdisj k' (by simp [hk'])
        have hkne : k ≠ k' := by
          rintro rfl
          exact (List.nodup_cons.mp (by simpa using hnd)).1 hk'
        rw [pyLookup_append_of_none _ _ _ hk'a]
        simp [pyLookup, hkne])]
    simp

/-! # Claim C8 — size of the registered tool surface -/

/-- C8 counterexample: the registered tool surface does not consist of 19
operations. -/
theorem c8_tool_surface_not_19 : ¬ ALL_TOOL_NAMES.length = 19 := by decide

/-- C8 (amended): the tool surface registered with the server consists of
exactly 24 distinct operations across the 5 handler groups: 8 record
tools, 6 list tools, 4 schema tools, 3 note tools and 3 task tools. -/
theorem c8_tool_surface_24 :
    ALL_TOOL_NAMES.length = 24
      ∧ tools_records_names.length = 8
      ∧ tools_lists_names.length = 6
      ∧ tools_schema_names.length = 4
      ∧ tools_notes_names.length = 3
      ∧ tools_tasks_names.length = 3
      ∧ ALL_TOOL_NAMES.Nodup := by
  refine ⟨by decide, by decide, by decide, by decide, by decide, by decide, by decide⟩

/-! # Claim C9 — write-value normalization is the identity -/

/-- C9: `_format_write_values` maps every dict (with the distinct keys
Python dicts guarantee) to itself: every key keeps the very same value,
so scalars pass through unchanged, lists pass through unchanged, and no
scalar is wrapped into a list. -/
theorem c9_format_write_values_identity (values : PyDict)
    (hnd : (values.map Prod.fst).Nodup) :
    _format_write_values values = values
      ∧ ∀ k, pyLookup (_format_write_values values) k = pyLookup values k := by
  have hstep : _format_write_values values
      = values.foldl (fun f kv => pySet f kv.1 kv.2) [] := by
    unfold _format_write_values
    apply List.foldl_ext
    intro f kv _
    cases h : kv.2 <;> simp [h]
  have h1 : _format_write_values values = values := by
    rw [hstep]
    simpa using foldl_pySet_eq_append values [] hnd (by intro k _; rfl)
  exact ⟨h1, fun k => by rw [h1]⟩

/-- C9 witness: a mixed scalar/list payload is returned unchanged. -/
theorem c9_format_write_values_identity_witness :
    _format_write_values [("name", .str "Acme"), ("domains", .arr [.str "acme.com"])]
      = [("name", .str "Acme"), ("domains", .arr [.str "acme.com"])] :=
  (c9_format_write_values_identity
    [("name", .str "Acme"), ("domains", .arr [.str "acme.com"])] (by decide)).1

/-! # Claim C4 — task deadline truncation -/

/-- C4: at the failing input, `_update_task` sends the supplied
`deadline_at` string `"2026-03-01T12:00:00Z"` verbatim in the PATCH body
(no truncation at the date/time separator), while `_create_task` with the
same deadline does truncate it to `"2026-03-01"` in the POST body. -/
theorem c4_update_task_deadline_not_truncated :
    (_update_task [("task_id", .str "t1"), ("deadline_at", .str "2026-03-01T12:00:00Z")]
        gwEmpty []).2
      = [⟨.patch, "/tasks/t1", [],
          .obj [("data", .obj [("deadline_at", .str "2026-03-01T12:00:00Z")])]⟩]
    ∧ (_create_task [("content", .str "follow up"),
          ("deadline_at", .str "2026-03-01T12:00:00Z")] gwEmpty []).2
      = [⟨.post, "/tasks", [],
          .obj [("data", .obj
            [("content", .str "follow up"), ("format", .str "plaintext"),
             ("is_completed", .bool false), ("linked_records", .arr []),
             ("assignees", .arr []), ("deadline_at", .str "2026-03-01")])]⟩] := by
  exact ⟨rfl, rfl⟩

/-! # Claim C6 — deduplication of parent-record lookups -/

/-- C6: a batch of two entries with the same (parent-object,
parent-record-id) pair issues two identical record lookups: the
`rid not in names` guard compares against the still-empty result dict, so
duplicates are not deduplicated. -/
theorem c6_duplicate_parent_lookups :
    (_resolve_parent_names gwAcme [entryR1, entryR1] []).2
        = [⟨.get, "/objects/companies/records/r1", [], .null⟩,
           ⟨.get, "/objects/companies/records/r1", [], .null⟩]
      ∧ (_resolve_parent_names gwAcme [entryR1, entryR1] []).1
        = .ok [(.str "r1", .str "Acme")] := by
  exact ⟨rfl, rfl⟩

/-! # Claim C2 — dispatcher totality and error conversion -/

theorem lookupHandler_append_of_none (a b : List (String × Handler)) (n : String)
    (h : lookupHandler a n = none) : lookupHandler (a ++ b) n = lookupHandler b n := by
  induction a with
  | nil => simp
  | cons p a ih =>
    obtain ⟨k, hd⟩ := p
    by_cases hk : k = n
    · simp [lookupHandler, hk] at h
    · simp only [lookupHandler, if_neg hk] at h
      simpa [lookupHandler, hk] using ih h

theorem lookupHandler_map_none (l : List String) (hd : Handler) (n : String)
    (hn : n ∉ l) : lookupHandler (l.map fun m => (m, hd)) n = none := by
  induction l with
  | nil => rfl
  | cons m l ih =>
    have h1 : m ≠ n := fun e => hn (by simp [e])
    have h2 : n ∉ l := fun e => hn (by simp [e])
    simpa [lookupHandler, h1] using ih h2

theorem lookupHandler_mkHandlers_none (h1 h2 h3 h4 h5 : Handler) (n : String)
    (h : n ∉ ALL_TOOL_NAMES) :
    lookupHandler (mkHandlers h1 h2 h3 h4 h5) n = none := by
  have e1 : n ∉ tools_records_names := fun hx => h (by simp [ALL_TOOL_NAMES, hx])
  have e2 : n ∉ tools_lists_names := fun hx => h (by simp [ALL_TOOL_NAMES, hx])
  have e3 : n ∉ tools_schema_names := fun hx => h (by simp [ALL_TOOL_NAMES, hx])
  have e4 : n ∉ tools_notes_names := fun hx => h (by simp [ALL_TOOL_NAMES, hx])
  have e5 : n ∉ tools_tasks_names := fun hx => h (by simp [ALL_TOOL_NAMES, hx])
  unfold mkHandlers
  rw [List.append_assoc, List.append_assoc, List.append_assoc]
  rw [lookupHandler_append_of_none _ _ _ (lookupHandler_map_none _ _ _ e1),
      lookupHandler_append_of_none _ _ _ (lookupHandler_map_none _ _ _ e2),
      lookupHandler_append_of_none _ _ _ (lookupHandler_map_none _ _ _ e3),
      lookupHandler_append_of_none _ _ _ (lookupHandler_map_none _ _ _ e4)]
  exact lookupHandler_map_none _ _ _ e5

/-- C2: for every registry, gateway, tool name and argument payload, the
dispatcher returns exactly one text result; an unknown tool name yields
an `"Error: "` text and leaves the call log untouched (zero remote
calls); a handler failure is converted to `"Error: <message>"`; a
non-dict payload behaves exactly as an empty argument dict; and with the
real registry (the five modules registered in order) any name outside the
24 registered tools is an unknown tool with zero remote calls. -/
theorem c2_call_tool_boundary (handlers : List (String × Handler)) (gw : Gateway)
    (name : String) (arguments : JVal) (log : CallLog) :
    (∃ t, (call_tool handlers gw name arguments log).1 = [t])
    ∧ (lookupHandler handlers name = none →
        call_tool handlers gw name arguments log
          = ([⟨"text", "Error: Unknown tool: " ++ name⟩], log))
    ∧ (∀ h msg log', lookupHandler handlers name = some h →
        h name (coerceArgs arguments) gw log = (.error msg, log') →
        call_tool handlers gw name arguments log = ([⟨"text", "Error: " ++ msg⟩], log'))
    ∧ (arguments.isObj = false →
        call_tool handlers gw name arguments log
          = call_tool handlers gw name (.obj []) log)
    ∧ (∀ h1 h2 h3 h4 h5, name ∉ ALL_TOOL_NAMES →
        call_tool (mkHandlers h1 h2 h3 h4 h5) gw name arguments log
          = ([⟨"text", "Error: Unknown tool: " ++ name⟩], log)) := by
  refine ⟨?_, ?_, ?_, ?_, ?_⟩
  · unfold call_tool
    cases hl : lookupHandler handlers name with
    | none => exact ⟨_, rfl⟩
    | some h =>
      rcases hr : h name (coerceArgs arguments) gw log with ⟨res, log'⟩
      cases res with
      | ok r => simp [hr]
      | error e => simp [hr]
  · intro hl
    simp [call_tool, hl]
  · intro h msg log' hl hr
    simp [call_tool, hl, hr]
  · intro hobj
    cases arguments <;> simp_all [JVal.isObj] <;> rfl
  · intro h1 h2 h3 h4 h5 hn
    simp [call_tool, lookupHandler_mkHandlers_none h1 h2 h3 h4 h5 name hn]

/-- C2 witness: dispatching the unknown name `nonexistent_tool` against
an empty registry yields the single error text and issues no calls. -/
theorem c2_call_tool_boundary_witness :
    call_tool [] gwEmpty "nonexistent_tool" (.obj []) []
      = ([⟨"text", "Error: Unknown tool: nonexistent_tool"⟩], []) :=
  (c2_call_tool_boundary [] gwEmpty "nonexistent_tool" (.obj []) []).2.1 rfl

/-! # Claim C10 — the linked-record filter of list_tasks -/

/-- C10: when `linked_object` and `linked_record_id` are not both
supplied truthy, `_list_tasks` silently drops the linked-record filter:
the single GET it issues carries neither parameter and no error is
raised on the way to the remote call; when both are supplied truthy,
both are included in the query parameters. -/
theorem c10_list_tasks_linked_filter (args : PyDict) (gw : Gateway) (log : CallLog) :
    (¬ ((pyGet args "linked_object" .null).truthy = true
          ∧ (pyGet args "linked_record_id" .null).truthy = true) →
      ∃ ps, (_list_tasks args gw log).2 = log ++ [⟨.get, "/tasks", ps, .null⟩]
        ∧ pyLookup ps "linked_object" = none
        ∧ pyLookup ps "linked_record_id" = none)
    ∧ ((pyGet args "linked_object" .null).truthy = true →
        (pyGet args "linked_record_id" .null).truthy = true →
      ∃ ps, (_list_tasks args gw log).2 = log ++ [⟨.get, "/tasks", ps, .null⟩]
        ∧ pyLookup ps "linked_object" = some (pyGet args "linked_object" .null)
        ∧ pyLookup ps "linked_record_id" = some (pyGet args "linked_record_id" .null)) := by
  constructor
  · intro hnot
    have hcond : ((pyGet args "linked_object" JVal.null).truthy
        && (pyGet args "linked_record_id" JVal.null).truthy) = false := by
      cases h1 : (pyGet args "linked_object" JVal.null).truthy
      · simp
      · cases h2 : (pyGet args "linked_record_id" JVal.null).truthy
        · simp
        · exact absurd ⟨h1, h2⟩ hnot
    unfold _list_tasks
    rw [hcond]
    by_cases hic : pyContains args "is_completed"
    · simp only [hic, Bool.false_eq_true, if_false, if_true]
      set ps := pySet [("limit", pyGet args "limit" (JVal.num 50))] "is_completed"
        (.str (pyLower (pyStr (pyGet args "is_completed" JVal.null)))) with hps
      refine ⟨ps, ?_, ?_, ?_⟩
      · rcases hgw : gw ⟨.get, "/tasks", ps, .null⟩ with e | d <;> simp [hgw]
      · rw [hps, pyLookup_set_ne _ _ _ _ (by decide)]; rfl
      · rw [hps, pyLookup_set_ne _ _ _ _ (by decide)]; rfl
    · simp only [hic, Bool.false_eq_true, if_false]
      refine ⟨[("limit", pyGet args "limit" (JVal.num 50))], ?_, by rfl, by rfl⟩
      rcases hgw : gw ⟨.get, "/tasks",
        [("limit", pyGet args "limit" (JVal.num 50))], .null⟩ with e | d <;> simp [hgw]
  · intro hlo hlr
    have hcond : ((pyGet args "linked_object" JVal.null).truthy
        && (pyGet args "linked_record_id" JVal.null).truthy) = true := by
      simp [hlo, hlr]
    unfold _list_tasks
    rw [hcond]
    set ps1 := pySet (pySet [("limit", pyGet args "limit" (JVal.num 50))] "linked_object"
        (pyGet args "linked_object" JVal.null)) "linked_record_id"
        (pyGet args "linked_record_id" JVal.null) with hps1
    have hv1 : pyLookup ps1 "linked_object" = some (pyGet args "linked_object" JVal.null) := by
      rw [hps1, pyLookup_set_ne _ _ _ _ (by decide), pyLookup_set_self]
    have hv2 : pyLookup ps1 "linked_record_id"
        = some (pyGet args "linked_record_id" JVal.null) := by
      rw [hps1, pyLookup_set_self]
    by_cases hic : pyContains args "is_completed"
    · simp only [hic, if_true]
      set ps := pySet ps1 "is_completed"
        (.str (pyLower (pyStr (pyGet args "is_completed" JVal.null)))) with hps
      refine ⟨ps, ?_, ?_, ?_⟩
      · rcases hgw : gw ⟨.get, "/tasks", ps, .null⟩ with e | d <;> simp [hgw]
      · rw [hps, pyLookup_set_ne _ _ _ _ (by decide)]; exact hv1
      · rw [hps, pyLookup_set_ne _ _ _ _ (by decide)]; exact hv2
    · simp only [hic, if_false]
      refine ⟨ps1, ?_, hv1, hv2⟩
      rcases hgw : gw ⟨.get, "/tasks", ps1, .null⟩ with e | d <;> simp [hgw]

/-- C10 witness: with only `linked_object` supplied, the issued GET
carries just the default limit. -/
theorem c10_list_tasks_linked_filter_witness :
    ∃ ps, (_list_tasks [("linked_object", .str "companies")] gwEmpty []).2
        = [⟨.get, "/tasks", ps, .null⟩]
      ∧ pyLookup ps "linked_object" = none
      ∧ pyLookup ps "linked_record_id" = none := by
  simpa using
    (c10_list_tasks_linked_filter [("linked_object", .str "companies")] gwEmpty []).1
      (by decide)

/-! # Claim C5 — slug auto-generation for lists and attributes -/

/-- C5 counterexample: `create_attribute` with title `"My Cool List!!"`
and no explicit slug sends `api_slug` `"my_cool_list!!"` — punctuation is
kept, so the sent slug is not the claimed `"my_cool_list"`. -/
theorem c5_attribute_slug_counterexample :
    (_create_attribute coolTitleArgs gwEmpty []).2
      = [⟨.post, "/objects/companies/attributes", [],
          .obj [("data", .obj
            [("title", .str "My Cool List!!"), ("api_slug", .str "my_cool_list!!"),
             ("type", .str "text"), ("description", .null),
             ("is_required", .bool false), ("is_unique", .bool false),
             ("is_multiselect", .bool false), ("config", .obj [])])]⟩]
    ∧ ("my_cool_list!!" : String) ≠ "my_cool_list" :=
  ⟨rfl, by decide⟩

/-- C5 (amended): with no explicit `api_slug`, `_create_list` derives the
sent slug from the name by lower-casing, collapsing every run of
non-alphanumerics to one underscore and trimming underscores (so
`"My Cool List!!"` yields `"my_cool_list"`), while `_create_attribute`
derives its slug from the title by lower-casing and replacing each space
and hyphen with an underscore, keeping all other punctuation. -/
theorem c5_slug_generation (args : PyDict) (gw : Gateway) (log : CallLog) :
    (∀ name, pyLookup args "name" = some (.str name) →
      (pyGet args "api_slug" (.str "")).truthy = false →
      ∃ d, (_create_list args gw log).2
          = log ++ [⟨.post, "/lists", [], .obj [("data", .obj d)]⟩]
        ∧ pyLookup d "api_slug" = some (.str (listSlug name)))
    ∧ (∀ title target target_id ty,
        pyLookup args "title" = some (.str title) →
        pyLookup args "target" = some target →
        pyLookup args "target_id" = some target_id →
        pyLookup args "type" = some ty →
        (pyGet args "api_slug" .null).truthy = false →
        (pyGet args "default_currency_code" .null).truthy = false →
      ∃ d, (_create_attribute args gw log).2
          = log ++ [⟨.post, "/" ++ pyStr target ++ "/" ++ pyStr target_id ++ "/attributes",
              [], .obj [("data", .obj d)]⟩]
        ∧ pyLookup d "api_slug" = some (.str (attributeSlug title)))
    ∧ listSlug "My Cool List!!" = "my_cool_list" := by
  refine ⟨?_, ?_, by rfl⟩
  · intro name hname hslug
    unfold _create_list
    rw [show pyGetItem args "name" = .ok (.str name) by simp [pyGetItem, hname]]
    simp only [hslug, Bool.false_eq_true, if_false]
    refine ⟨[("name", .str name), ("api_slug", .str (listSlug name)),
             ("parent_object", pyGet args "parent_object" (.str "companies")),
             ("workspace_access", pyGet args "workspace_access" (.str "full-access")),
             ("workspace_member_access", .arr [])], ?_, by simp [pyLookup]⟩
    rcases hgw : gw ⟨.post, "/lists", [],
        .obj [("data", .obj [("name", .str name), ("api_slug", .str (listSlug name)),
          ("parent_object", pyGet args "parent_object" (.str "companies")),
          ("workspace_access", pyGet args "workspace_access" (.str "full-access")),
          ("workspace_member_access", .arr [])])]⟩ with e | r <;>
      simp [hgw]
  · intro title target target_id ty htitle htarget htid hty hslug hdcc
    unfold _create_attribute
    rw [show pyGetItem args "target" = .ok target by simp [pyGetItem, htarget],
        show pyGetItem args "target_id" = .ok target_id by simp [pyGetItem, htid]]
    simp only [hslug, Bool.false_eq_true, if_false]
    rw [show pyGetItem args "title" = .ok (.str title) by simp [pyGetItem, htitle],
        show pyGetItem args "type" = .ok ty by simp [pyGetItem, hty]]
    simp only [hdcc, Bool.false_eq_true, if_false]
    by_cases hrel : (pyGet args "relationship" JVal.null).truthy
    · simp only [hrel, if_true]
      set d := pySet [("title", JVal.str title), ("api_slug", .str (attributeSlug title)),
        ("type", ty),
        ("description", if (pyGet args "description" JVal.null).truthy = true
          then pyGet args "description" JVal.null else JVal.null),
        ("is_required", pyGet args "is_required" (.bool false)),
        ("is_unique", pyGet args "is_unique" (.bool false)),
        ("is_multiselect", pyGet args "is_multiselect" (.bool false)),
        ("config", if (pyGet args "config" JVal.null).truthy = true
          then pyGet args "config" JVal.null else .obj [])]
        "relationship" (pyGet args "relationship" JVal.null) with hd
    
      refine ⟨d, ?_, ?_⟩
      · rcases hgw : gw ⟨.post, "/" ++ pyStr target ++ "/" ++ pyStr target_id ++ "/attributes",
            [], .obj [("data", .obj d)]⟩ with e | r <;> simp [hgw]
      · rw [hd, pyLookup_set_ne _ _ _ _ (by decide)]
        simp [pyLookup]
    · simp only [hrel, Bool.false_eq_true, if_false]
      refine ⟨[("title", JVal.str title), ("api_slug", .str (attributeSlug title)),
        ("type", ty),
        ("description", if (pyGet args "description" JVal.null).truthy = true
          then pyGet args "description" JVal.null else JVal.null),
        ("is_required", pyGet args "is_required" (.bool false)),
        ("is_unique", pyGet args "is_unique" (.bool false)),
        ("is_multiselect", pyGet args "is_multiselect" (.bool false)),
        ("config", if (pyGet args "config" JVal.null).truthy = true
          then pyGet args "config" JVal.null else .obj [])], ?_, ?_⟩
      · rcases hgw : gw ⟨.post, "/" ++ pyStr target ++ "/" ++ pyStr target_id ++ "/attributes",
            [], .obj [("data", .obj [("title", JVal.str title),
              ("api_slug", .str (attributeSlug title)), ("type", ty),
              ("description", if (pyGet args "description" JVal.null).truthy = true
                then pyGet args "description" JVal.null else JVal.null),
              ("is_required", pyGet args "is_required" (.bool false)),
              ("is_unique", pyGet args "is_unique" (.bool false)),
              ("is_multiselect", pyGet args "is_multiselect" (.bool false)),
              ("config", if (pyGet args "config" JVal.null).truthy = true
                then pyGet args "config" JVal.null else .obj [])])]⟩ with e | r <;>
          simp [hgw]
      · simp [pyLookup]

/-- C5 witness: the list slug for `"My Cool List!!"` is sent as
`"my_cool_list"`. -/
theorem c5_slug_generation_witness :
    ∃ d, (_create_list [("name", .str "My Cool List!!")] gwEmpty []).2
        = [⟨.post, "/lists", [], .obj [("data", .obj d)]⟩]
      ∧ pyLookup d "api_slug" = some (.str (listSlug "My Cool List!!")) := by
  simpa using
    (c5_slug_generation [("name", .str "My Cool List!!")] gwEmpty []).1
      "My Cool List!!" rfl (by decide)

/-! # Claims C1 and C3 — extraction priority and totality -/

theorem findPriority_cons_skip (val : PyDict) (k : String) (ks : List String)
    (h : absentOrNull val k) : findPriority val (k :: ks) = findPriority val ks := by
  rcases h with h | h <;> simp [findPriority, h]

theorem findPriority_cons_hit (val : PyDict) (k : String) (ks : List String) (v : JVal)
    (h : pyLookup val k = some v) (hv : v ≠ JVal.null) :
    findPriority val (k :: ks) = some v := by
  cases v <;> simp [findPriority, h] <;> simp at hv

theorem findPriority_none (val : PyDict) (ks : List String)
    (h : ∀ k ∈ ks, absentOrNull val k) : findPriority val ks = none := by
  induction ks with
  | nil => rfl
  | cons k ks ih =>
    rw [findPriority_cons_skip val k ks (h k (by simp))]
    exact ih (fun k' hk' => h k' (by simp [hk']))

theorem extract_value_eq_statusOn (val : PyDict)
    (hmiss : priorityMiss val) (hopt : noTruthyAt val "option") :
    extract_value val = extractStatusOn val := by
  unfold extract_value
  rw [findPriority_none val priorityKeys hmiss]
  cases ho : pyLookup val "option" with
  | none => rfl
  | some ov => simp [hopt ov ho]

theorem extractStatusOn_eq_currency (val : PyDict) (hst : noTruthyAt val "status") :
    extractStatusOn val = extractCurrencyOn val := by
  unfold extractStatusOn
  cases hs : pyLookup val "status" with
  | none => rfl
  | some sv => simp [hst sv hs]

theorem extractCurrencyOn_eq_date (val : PyDict)
    (hc : absentOrNull val "currency_value") :
    extractCurrencyOn val = extractDate val := by
  rcases hc with h | h <;> simp [extractCurrencyOn, h]

theorem extractDate_eq_target (val : PyDict) (hd : absentOrNull val "date") :
    extractDate val = extractTarget val := by
  rcases hd with h | h <;> simp [extractDate, h]

theorem extractTarget_empty (val : PyDict) (ht : noTruthyAt val "target_record_id") :
    extractTarget val = .ok (.str "") := by
  unfold extractTarget
  cases h : pyLookup val "target_record_id" with
  | none => rfl
  | some tv => simp [ht tv h]

/-- C1: `extract_value` realizes the fixed priority order.  Each of the
six string keys wins when it is present non-null and all earlier keys
are absent-or-null; then a truthy `option` dict yields its title (with
`str(option)` as fallback), then a truthy `status` dict likewise, then a
non-null `currency_value` yields `"<code> <amount>"`, then a non-null
`date`, then a truthy `target_record_id` yields the `"[record:<id>]"`
sentinel, and when nothing matches the result is the empty string.  In
particular a value object carrying both `display_value` and
`email_address` yields the `display_value`. -/
theorem c1_extract_priority (val : PyDict) :
    (∀ v, pyLookup val "display_value" = some v → v ≠ .null →
        extract_value val = .ok (.str (pyStr v)))
    ∧ (absentOrNull val "display_value" →
        ∀ v, pyLookup val "full_name" = some v → v ≠ .null →
        extract_value val = .ok (.str (pyStr v)))
    ∧ (absentOrNull val "display_value" → absentOrNull val "full_name" →
        ∀ v, pyLookup val "value" = some v → v ≠ .null →
        extract_value val = .ok (.str (pyStr v)))
    ∧ (absentOrNull val "display_value" → absentOrNull val "full_name" →
        absentOrNull val "value" →
        ∀ v, pyLookup val "email_address" = some v → v ≠ .null →
        extract_value val = .ok (.str (pyStr v)))
    ∧ (absentOrNull val "display_value" → absentOrNull val "full_name" →
        absentOrNull val "value" → absentOrNull val "email_address" →
        ∀ v, pyLookup val "domain" = some v → v ≠ .null →
        extract_value val = .ok (.str (pyStr v)))
    ∧ (absentOrNull val "display_value" → absentOrNull val "full_name" →
        absentOrNull val "value" → absentOrNull val "email_address" →
        absentOrNull val "domain" →
        ∀ v, pyLookup val "phone_number" = some v → v ≠ .null →
        extract_value val = .ok (.str (pyStr v)))
    ∧ (priorityMiss val →
        ∀ fs, pyLookup val "option" = some (.obj fs) → (JVal.obj fs).truthy = true →
        extract_value val = .ok (pyGet fs "title" (.str (pyStr (.obj fs)))))
    ∧ (priorityMiss val → noTruthyAt val "option" →
        ∀ fs, pyLookup val "status" = some (.obj fs) → (JVal.obj fs).truthy = true →
        extract_value val = .ok (pyGet fs "title" (.str (pyStr (.obj fs)))))
    ∧ (priorityMiss val → noTruthyAt val "option" → noTruthyAt val "status" →
        ∀ cv, pyLookup val "currency_value" = some cv → cv ≠ .null →
        extract_value val
          = .ok (.str (pyStr (pyGet val "currency_code" (.str "")) ++ " " ++ pyStr cv)))
    ∧ (priorityMiss val → noTruthyAt val "option" → noTruthyAt val "status" →
        absentOrNull val "currency_value" →
        ∀ dv, pyLookup val "date" = some dv → dv ≠ .null →
        extract_value val = .ok (.str (pyStr dv)))
    ∧ (priorityMiss val → noTruthyAt val "option" → noTruthyAt val "status" →
        absentOrNull val "currency_value" → absentOrNull val "date" →
        ∀ tv, pyLookup val "target_record_id" = some tv → tv.truthy = true →
        extract_value val = .ok (.str ("[record:" ++ pyStr tv ++ "]")))
    ∧ (priorityMiss val → noTruthyAt val "option" → noTruthyAt val "status" →
        absentOrNull val "currency_value" → absentOrNull val "date" →
        noTruthyAt val "target_record_id" →
        extract_value val = .ok (.str ""))
    ∧ (∀ dv ev, pyLookup val "display_value" = some dv → dv ≠ .null →
        pyLookup val "email_address" = some ev →
        extract_value val = .ok (.str (pyStr dv))) := by
  have hit1 : ∀ v, pyLookup val "display_value" = some v → v ≠ JVal.null →
      extract_value val = .ok (.str (pyStr v)) := by
    intro v hv hnv
    unfold extract_value
    simp only [priorityKeys]
    rw [findPriority_cons_hit _ _ _ v hv hnv]
  refine ⟨hit1, ?_, ?_, ?_, ?_, ?_, ?_, ?_, ?_, ?_, ?_, ?_,
    fun dv ev h1 h2 _ => hit1 dv h1 h2⟩
  · intro h1 v hv hnv
    unfold extract_value
    simp only [priorityKeys]
    rw [findPriority_cons_skip _ _ _ h1, findPriority_cons_hit _ _ _ v hv hnv]
  · intro h1 h2 v hv hnv
    unfold extract_value
    simp only [priorityKeys]
    rw [findPriority_cons_skip _ _ _ h1, findPriority_cons_skip _ _ _ h2,
        findPriority_cons_hit _ _ _ v hv hnv]
  · intro h1 h2 h3 v hv hnv
    unfold extract_value
    simp only [priorityKeys]
    rw [findPriority_cons_skip _ _ _ h1, findPriority_cons_skip _ _ _ h2,
        findPriority_cons_skip _ _ _ h3, findPriority_cons_hit _ _ _ v hv hnv]
  · intro h1 h2 h3 h4 v hv hnv
    unfold extract_value
    simp only [priorityKeys]
    rw [findPriority_cons_skip _ _ _ h1, findPriority_cons_skip _ _ _ h2,
        findPriority_cons_skip _ _ _ h3, findPriority_cons_skip _ _ _ h4,
        findPriority_cons_hit _ _ _ v hv hnv]
  · intro h1 h2 h3 h4 h5 v hv hnv
    unfold extract_value
    simp only [priorityKeys]
    rw [findPriority_cons_skip _ _ _ h1, findPriority_cons_skip _ _ _ h2,
        findPriority_cons_skip _ _ _ h3, findPriority_cons_skip _ _ _ h4,
        findPriority_cons_skip _ _ _ h5, findPriority_cons_hit _ _ _ v hv hnv]
  · intro hmiss fs ho htr
    unfold extract_value
    rw [findPriority_none val priorityKeys hmiss, ho]
    simp [htr]
  · intro hmiss hopt fs hs htr
    rw [extract_value_eq_statusOn val hmiss hopt]
    unfold extractStatusOn
    rw [hs]
    simp [htr]
  · intro hmiss hopt hst cv hcv hnv
    rw [extract_value_eq_statusOn val hmiss hopt, extractStatusOn_eq_currency val hst]
    unfold extractCurrencyOn
    cases cv <;> simp [hcv] <;> simp at hnv
  · intro hmiss hopt hst hc dv hdv hnv
    rw [extract_value_eq_statusOn val hmiss hopt, extractStatusOn_eq_currency val hst,
        extractCurrencyOn_eq_date val hc]
    unfold extractDate
    cases dv <;> simp [hdv] <;> simp at hnv
  · intro hmiss hopt hst hc hd tv htv htr
    rw [extract_value_eq_statusOn val hmiss hopt, extractStatusOn_eq_currency val hst,
        extractCurrencyOn_eq_date val hc, extractDate_eq_target val hd]
    unfold extractTarget
    rw [htv]
    simp [htr]
  · intro hmiss hopt hst hc hd ht
    rw [extract_value_eq_statusOn val hmiss hopt, extractStatusOn_eq_currency val hst,
        extractCurrencyOn_eq_date val hc, extractDate_eq_target val hd,
        extractTarget_empty val ht]

/-- C1 witness: with both `display_value` and `email_address` present,
the `display_value` wins. -/
theorem c1_extract_priority_witness :
    extract_value [("display_value", .str "a"), ("email_address", .str "b")]
      = .ok (.str "a") :=
  (c1_extract_priority [("display_value", .str "a"), ("email_address", .str "b")]
    ).2.2.2.2.2.2.2.2.2.2.2.2 (.str "a") (.str "b") rfl (by decide) rfl

/-- C3 counterexample: on the unrecognized shape where `option` is bound
to a truthy string, `extract_value` raises (`.get` on a non-dict) rather
than returning a string. -/
theorem c3_extract_value_raises :
    extract_value [("option", .str "archived")] = .error "AttributeError: get" := rfl

theorem extractTarget_ok (val : PyDict) : ∃ s, extractTarget val = .ok (.str s) := by
  unfold extractTarget
  cases pyLookup val "target_record_id" with
  | none => exact ⟨"", rfl⟩
  | some tv =>
    by_cases ht : tv.truthy
    · exact ⟨"[record:" ++ pyStr tv ++ "]", by simp [ht]⟩
    · exact ⟨"", by simp [ht]⟩

theorem extractDate_ok (val : PyDict) : ∃ s, extractDate val = .ok (.str s) := by
  unfold extractDate
  cases pyLookup val "date" with
  | none => exact extractTarget_ok val
  | some dv => cases dv <;> first | exact extractTarget_ok val | exact ⟨_, rfl⟩

theorem extractCurrencyOn_ok (val : PyDict) :
    ∃ s, extractCurrencyOn val = .ok (.str s) := by
  unfold extractCurrencyOn
  cases pyLookup val "currency_value" with
  | none => exact extractDate_ok val
  | some cv => cases cv <;> first | exact extractDate_ok val | exact ⟨_, rfl⟩

theorem extractStatusOn_shape (val : PyDict)
    (hst : ∀ sv, pyLookup val "status" = some sv → sv.truthy = true → sv.isObj = true) :
    ∃ v, extractStatusOn val = .ok v
      ∧ ((∃ s, v = JVal.str s)
         ∨ ∃ fs, pyLookup val "status" = some (.obj fs)
             ∧ v = pyGet fs "title" (.str (pyStr (.obj fs)))) := by
  unfold extractStatusOn
  cases hs : pyLookup val "status" with
  | none =>
    obtain ⟨s, h⟩ := extractCurrencyOn_ok val
    exact ⟨_, h, .inl ⟨s, rfl⟩⟩
  | some sv =>
    by_cases ht : sv.truthy
    · have hobj := hst sv hs ht
      cases sv with
      | obj fs => exact ⟨_, by simp [ht], .inr ⟨fs, rfl, rfl⟩⟩
      | null => simp [JVal.isObj] at hobj
      | bool b => simp [JVal.isObj] at hobj
      | num n => simp [JVal.isObj] at hobj
      | str s => simp [JVal.isObj] at hobj
      | arr xs => simp [JVal.isObj] at hobj
    · obtain ⟨s, h⟩ := extractCurrencyOn_ok val
      refine ⟨_, ?_, .inl ⟨s, rfl⟩⟩
      simp only [ht, Bool.false_eq_true, if_false]
      exact h

/-- C3 (amended): `extract_value` is deterministic and, on every value
object whose `option`/`status` entries (when present and truthy) are
dicts, total: it returns a value without raising — a string, except that
a present option/status title is returned verbatim — and the empty
object yields the empty string.  (On a truthy non-dict `option` or
`status` it raises `AttributeError`, per the counterexample.) -/
theorem c3_extract_value_total (val : PyDict)
    (hopt : ∀ ov, pyLookup val "option" = some ov → ov.truthy = true → ov.isObj = true)
    (hst : ∀ sv, pyLookup val "status" = some sv → sv.truthy = true → sv.isObj = true) :
    (∃ v, extract_value val = .ok v
       ∧ ((∃ s, v = JVal.str s)
          ∨ ∃ fs, (pyLookup val "option" = some (.obj fs)
                    ∨ pyLookup val "status" = some (.obj fs))
              ∧ v = pyGet fs "title" (.str (pyStr (.obj fs)))))
    ∧ extract_value [] = .ok (.str "") := by
  refine ⟨?_, rfl⟩
  unfold extract_value
  cases findPriority val priorityKeys with
  | some v => exact ⟨_, rfl, .inl ⟨_, rfl⟩⟩
  | none =>
    cases ho : pyLookup val "option" with
    | some ov =>
      by_cases hovt : ov.truthy
      · have hobj := hopt ov ho hovt
        cases ov with
        | obj fs => exact ⟨_, by simp [hovt], .inr ⟨fs, .inl rfl, rfl⟩⟩
        | null => simp [JVal.isObj] at hobj
        | bool b => simp [JVal.isObj] at hobj
        | num n => simp [JVal.isObj] at hobj
        | str s => simp [JVal.isObj] at hobj
        | arr xs => simp [JVal.isObj] at hobj
      · obtain ⟨v, h, hv⟩ := extractStatusOn_shape val hst
        refine ⟨v, ?_, ?_⟩
        · simp only [hovt, Bool.false_eq_true, if_false]
          exact h
        · rcases hv with hv | ⟨fs, hfs, hv⟩
          · exact .inl hv
          · exact .inr ⟨fs, .inr hfs, hv⟩
    | none =>
      obtain ⟨v, h, hv⟩ := extractStatusOn_shape val hst
      refine ⟨v, h, ?_⟩
      rcases hv with hv | ⟨fs, hfs, hv⟩
      · exact .inl hv
      · exact .inr ⟨fs, .inr hfs, hv⟩

/-- C3 witness: the empty object extracts to the empty string without
raising. -/
theorem c3_extract_value_total_witness : extract_value [] = .ok (.str "") :=
  (c3_extract_value_total [] (fun _ h => nomatch h) (fun _ h => nomatch h)).2

/-! # Claim C7 — partial-failure tolerance of parent-name resolution -/

theorem pyLookupJ_ok (d : PyDictJ) (k : JVal) (h : k.hashable = true) :
    pyLookupJ d k = .ok (pyFindJ d k) := by
  simp [pyLookupJ, h]

theorem pySetJ_ok (d : PyDictJ) (k v : JVal) (h : k.hashable = true) :
    pySetJ d k v = .ok (pyStoreJ d k v) := by
  simp [pySetJ, h]

theorem pyFindJ_storeJ_self (d : PyDictJ) (k v : JVal) :
    pyFindJ (pyStoreJ d k v) k = some v := by
  induction d with
  | nil => simp [pyStoreJ, pyFindJ]
  | cons kv d ih =>
    obtain ⟨k', v'⟩ := kv
    by_cases h : k' = k
    · simp [pyStoreJ, h, pyFindJ]
    · simp [pyStoreJ, h, pyFindJ, ih]

theorem pyFindJ_storeJ_ne (d : PyDictJ) (k k' v : JVal) (h : k ≠ k') :
    pyFindJ (pyStoreJ d k v) k' = pyFindJ d k' := by
  induction d with
  | nil => simp [pyStoreJ, pyFindJ, h]
  | cons kv d ih =>
    obtain ⟨k'', v''⟩ := kv
    by_cases h2 : k'' = k
    · subst h2
      simp [pyStoreJ, pyFindJ, h]
    · simp [pyStoreJ, h2, pyFindJ, ih]

theorem addToGroup_self :
    ∀ (g : List (JVal × List JVal)) (obj rid : JVal),
      ∃ grp ∈ addToGroup g obj rid, rid ∈ grp.2
  | [], obj, rid => ⟨(obj, [rid]), by simp [addToGroup]⟩
  | (o, rids) :: rest, obj, rid => by
    by_cases h : o = obj
    · exact ⟨(o, rids ++ [rid]), by simp [addToGroup, h]⟩
    · obtain ⟨grp, hg, hr⟩ := addToGroup_self rest obj rid
      exact ⟨grp, by simp [addToGroup, h, hg], hr⟩

theorem addToGroup_mono :
    ∀ (g : List (JVal × List JVal)) (obj rid r : JVal),
      (∃ grp ∈ g, r ∈ grp.2) → ∃ grp ∈ addToGroup g obj rid, r ∈ grp.2
  | [], obj, rid, r, h => by simp at h
  | (o, rids) :: rest, obj, rid, r, h => by
    obtain ⟨grp, hg, hr⟩ := h
    rcases List.mem_cons.mp hg with hg | hg
    · subst hg
      by_cases ho : o = obj
      · exact ⟨(o, rids ++ [rid]), by simp [addToGroup, ho], by simp at hr ⊢; exact .inl hr⟩
      · exact ⟨(o, rids), by simp [addToGroup, ho], hr⟩
    · by_cases ho : o = obj
      · exact ⟨grp, by simp [addToGroup, ho, hg], hr⟩
      · obtain ⟨grp', hg', hr'⟩ := addToGroup_mono rest obj rid r ⟨grp, hg, hr⟩
        exact ⟨grp', by simp [addToGroup, ho]; exact .inr hg', hr'⟩

theorem addToGroup_rids :
    ∀ (g : List (JVal × List JVal)) (obj rid : JVal) (grp' : JVal × List JVal),
      grp' ∈ addToGroup g obj rid → ∀ r ∈ grp'.2,
        (∃ grp ∈ g, r ∈ grp.2) ∨ r = rid
  | [], obj, rid, grp', hg', r, hr => by
    simp [addToGroup] at hg'
    subst hg'
    simp at hr
    exact .inr hr
  | (o, rids) :: rest, obj, rid, grp', hg', r, hr => by
    by_cases ho : o = obj
    · simp only [addToGroup, if_pos ho] at hg'
      rcases List.mem_cons.mp hg' with hg | hg
      · subst hg
        simp at hr
        rcases hr with hr | hr
        · exact .inl ⟨(o, rids), by simp, hr⟩
        · exact .inr hr
      · exact .inl ⟨grp', by simp [hg], hr⟩
    · simp only [addToGroup, if_neg ho] at hg'
      rcases List.mem_cons.mp hg' with hg | hg
      · subst hg
        exact .inl ⟨(o, rids), by simp, hr⟩
      · rcases addToGroup_rids rest obj rid grp' hg r hr with ⟨grp, hgm, hrm⟩ | h
        · exact .inl ⟨grp, by simp [hgm], hrm⟩
        · exact .inr h

theorem groupEntries_ok (names : PyDictJ) :
    ∀ (entries : List JVal) (g : List (JVal × List JVal)),
      (∀ e ∈ entries, e.isObj = true) →
      entriesResolvable entries →
      ∃ gr, groupEntries names g entries = .ok gr
  | [], g, _, _ => ⟨g, rfl⟩
  | e :: rest, g, h, hres => by
    have hrest : ∀ x ∈ rest, x.isObj = true := fun x hx => h x (by simp [hx])
    have hres2 : entriesResolvable rest := fun fs hfs => hres fs (by simp [hfs])
    cases e with
    | obj fs =>
      simp only [groupEntries]
      by_cases hg : ((pyGet fs "parent_object" (.str "")).truthy
          && (pyGet fs "parent_record_id" (.str "")).truthy) = true
      · obtain ⟨h1, h2⟩ : _ ∧ _ := by simpa using hg
        obtain ⟨hrh, hoh⟩ := hres fs (by simp) h1 h2
        rw [if_pos hg, pyLookupJ_ok names _ hrh]
        cases pyFindJ names (pyGet fs "parent_record_id" (.str "")) with
        | some v => exact groupEntries_ok names rest g hrest hres2
        | none =>
          rw [if_pos hoh]
          exact groupEntries_ok names rest _ hrest hres2
      · rw [if_neg hg]
        exact groupEntries_ok names rest g hrest hres2
    | null => exact absurd (h JVal.null (List.mem_cons_self _ _)) (by simp [JVal.isObj])
    | bool b => exact absurd (h (JVal.bool b) (List.mem_cons_self _ _)) (by simp [JVal.isObj])
    | num n => exact absurd (h (JVal.num n) (List.mem_cons_self _ _)) (by simp [JVal.isObj])
    | str s => exact absurd (h (JVal.str s) (List.mem_cons_self _ _)) (by simp [JVal.isObj])
    | arr xs => exact absurd (h (JVal.arr xs) (List.mem_cons_self _ _)) (by simp [JVal.isObj])

theorem groupEntries_mono :
    ∀ (entries : List JVal) (g gr : List (JVal × List JVal)) (r : JVal),
      groupEntries [] g entries = .ok gr →
      (∃ grp ∈ g, r ∈ grp.2) → ∃ grp ∈ gr, r ∈ grp.2
  | [], g, gr, r, hres, h => by
    simp only [groupEntries] at hres
    cases hres
    exact h
  | e :: rest, g, gr, r, hres, h => by
    cases e with
    | obj fs =>
      simp only [groupEntries] at hres
      by_cases hg : ((pyGet fs "parent_object" (.str "")).truthy
          && (pyGet fs "parent_record_id" (.str "")).truthy) = true
      · rw [if_pos hg] at hres
        by_cases hrh : (pyGet fs "parent_record_id" (.str "")).hashable = true
        · rw [pyLookupJ_ok [] _ hrh] at hres
          simp only [pyFindJ] at hres
          by_cases hoh : (pyGet fs "parent_object" (.str "")).hashable = true
          · rw [if_pos hoh] at hres
            exact groupEntries_mono rest _ gr r hres (addToGroup_mono g _ _ r h)
          · rw [if_neg hoh] at hres
            cases hres
        · simp only [pyLookupJ, hrh, Bool.false_eq_true, if_false] at hres
          cases hres
      · rw [if_neg hg] at hres
        exact groupEntries_mono rest g gr r hres h
    | null => simp [groupEntries] at hres
    | bool b => simp [groupEntries] at hres
    | num n => simp [groupEntries] at hres
    | str s => simp [groupEntries] at hres
    | arr xs => simp [groupEntries] at hres

theorem groupEntries_mem :
    ∀ (entries : List JVal) (g gr : List (JVal × List JVal)),
      groupEntries [] g entries = .ok gr →
      ∀ fs, (JVal.obj fs) ∈ entries →
        (pyGet fs "parent_object" (.str "")).truthy = true →
        (pyGet fs "parent_record_id" (.str "")).truthy = true →
        ∃ grp ∈ gr, pyGet fs "parent_record_id" (.str "") ∈ grp.2
  | [], g, gr, hres, fs, hmem, _, _ => by simp at hmem
  | e :: rest, g, gr, hres, fs, hmem, ho, hr => by
    rcases List.mem_cons.mp hmem with he | he
    · subst he
      simp only [groupEntries, ho, hr, Bool.and_self, if_true] at hres
      by_cases hrh : (pyGet fs "parent_record_id" (.str "")).hashable = true
      · rw [pyLookupJ_ok [] _ hrh] at hres
        simp only [pyFindJ] at hres
        by_cases hoh : (pyGet fs "parent_object" (.str "")).hashable = true
        · rw [if_pos hoh] at hres
          exact groupEntries_mono rest _ gr _ hres
            (addToGroup_self g (pyGet fs "parent_object" (.str ""))
              (pyGet fs "parent_record_id" (.str "")))
        · rw [if_neg hoh] at hres
          cases hres
      · simp only [pyLookupJ, hrh, Bool.false_eq_true, if_false] at hres
        cases hres
    · cases e with
      | obj fs' =>
        simp only [groupEntries] at hres
        by_cases hg : ((pyGet fs' "parent_object" (.str "")).truthy
            && (pyGet fs' "parent_record_id" (.str "")).truthy) = true
        · rw [if_pos hg] at hres
          by_cases hrh : (pyGet fs' "parent_record_id" (.str "")).hashable = true
          · rw [pyLookupJ_ok [] _ hrh] at hres
            simp only [pyFindJ] at hres
            by_cases hoh : (pyGet fs' "parent_object" (.str "")).hashable = true
            · rw [if_pos hoh] at hres
              exact groupEntries_mem rest _ gr hres fs he ho hr
            · rw [if_neg hoh] at hres
              cases hres
          · simp only [pyLookupJ, hrh, Bool.false_eq_true, if_false] at hres
            cases hres
        · rw [if_neg hg] at hres
          exact groupEntries_mem rest g gr hres fs he ho hr
      | null => simp [groupEntries] at hres
      | bool b => simp [groupEntries] at hres
      | num n => simp [groupEntries] at hres
      | str s => simp [groupEntries] at hres
      | arr xs => simp [groupEntries] at hres

theorem groupEntries_rids_hashable :
    ∀ (entries : List JVal) (g gr : List (JVal × List JVal)),
      groupEntries [] g entries = .ok gr →
      (∀ grp ∈ g, ∀ r ∈ grp.2, r.hashable = true) →
      ∀ grp ∈ gr, ∀ r ∈ grp.2, r.hashable = true
  | [], g, gr, hres, hg => by
    simp only [groupEntries] at hres
    cases hres
    exact hg
  | e :: rest, g, gr, hres, hg => by
    cases e with
    | obj fs =>
      simp only [groupEntries] at hres
      by_cases hcond : ((pyGet fs "parent_object" (.str "")).truthy
          && (pyGet fs "parent_record_id" (.str "")).truthy) = true
      · rw [if_pos hcond] at hres
        by_cases hrh : (pyGet fs "parent_record_id" (.str "")).hashable = true
        · rw [pyLookupJ_ok [] _ hrh] at hres
          simp only [pyFindJ] at hres
          by_cases hoh : (pyGet fs "parent_object" (.str "")).hashable = true
          · rw [if_pos hoh] at hres
            refine groupEntries_rids_hashable rest _ gr hres ?_
            intro grp' hg' r hr
            rcases addToGroup_rids g _ _ grp' hg' r hr with ⟨grp, hgm, hrm⟩ | hr2
            · exact hg grp hgm r hrm
            · rw [hr2]
              exact hrh
          · rw [if_neg hoh] at hres
            cases hres
        · simp only [pyLookupJ, hrh, Bool.false_eq_true, if_false] at hres
          cases hres
      · rw [if_neg hcond] at hres
        exact groupEntries_rids_hashable rest g gr hres hg
    | null => simp [groupEntries] at hres
    | bool b => simp [groupEntries] at hres
    | num n => simp [groupEntries] at hres
    | str s => simp [groupEntries] at hres
    | arr xs => simp [groupEntries] at hres

theorem resolveOne_fail (gw : Gateway) (hgw : ∀ c, ∃ m, gw c = .error m)
    (obj rid : JVal) (names : PyDictJ) (log : CallLog)
    (hrid : rid.hashable = true) :
    resolveOne gw obj rid names log
      = (.ok (pyStoreJ names rid rid),
         log ++ [⟨.get, "/objects/" ++ pyStr obj ++ "/records/" ++ pyStr rid, [], .null⟩]) := by
  obtain ⟨m, hm⟩ :=
    hgw ⟨.get, "/objects/" ++ pyStr obj ++ "/records/" ++ pyStr rid, [], .null⟩
  have hatt : (do
      let nm ← resolveTryBody
        (← gw ⟨.get, "/objects/" ++ pyStr obj ++ "/records/" ++ pyStr rid, [], .null⟩)
      match nm with
      | some name => pySetJ names rid (.str name)
      | none => pure names : Except String PyDictJ) = .error m := by
    rw [hm]
    rfl
  simp only [resolveOne]
  rw [hatt, pySetJ_ok names rid rid hrid]

theorem resolveOne_fst_ok (gw : Gateway) (obj rid : JVal) (names : PyDictJ)
    (log : CallLog) (hrid : rid.hashable = true) :
    ∃ names2, (resolveOne gw obj rid names log).1 = .ok names2 := by
  simp only [resolveOne]
  cases hatt : (do
      let nm ← resolveTryBody
        (← gw ⟨.get, "/objects/" ++ pyStr obj ++ "/records/" ++ pyStr rid, [], .null⟩)
      match nm with
      | some name => pySetJ names rid (.str name)
      | none => pure names : Except String PyDictJ) with
  | ok ns2 => exact ⟨ns2, rfl⟩
  | error e =>
    rw [pySetJ_ok names rid rid hrid]
    exact ⟨pyStoreJ names rid rid, rfl⟩

theorem foldRids_fail (gw : Gateway) (hgw : ∀ c, ∃ m, gw c = .error m) (obj : JVal) :
    ∀ (rids : List JVal), (∀ r ∈ rids, r.hashable = true) →
    ∀ (acc : Except String PyDictJ × CallLog) (ns : PyDictJ), acc.1 = .ok ns →
      (rids.foldl
        (fun (acc2 : Except String PyDictJ × CallLog) rid =>
          match acc2.1 with
          | .error _ => acc2
          | .ok names => resolveOne gw obj rid names acc2.2) acc).1
        = .ok (rids.foldl (fun n r => pyStoreJ n r r) ns)
  | [], _, acc, ns, hacc => by simpa using hacc
  | rid :: rids, hh, acc, ns, hacc => by
    simp only [List.foldl_cons]
    have step : (match acc.1 with
        | .error _ => acc
        | .ok names => resolveOne gw obj rid names acc.2)
        = (.ok (pyStoreJ ns rid rid),
           acc.2 ++ [⟨.get, "/objects/" ++ pyStr obj ++ "/records/" ++ pyStr rid, [], .null⟩]) := by
      rw [hacc]
      exact resolveOne_fail gw hgw obj rid ns acc.2 (hh rid (by simp))
    rw [step]
    exact foldRids_fail gw hgw obj rids (fun r hr => hh r (by simp [hr])) _ _ rfl

theorem foldRids_fst_ok (gw : Gateway) (obj : JVal) :
    ∀ (rids : List JVal), (∀ r ∈ rids, r.hashable = true) →
    ∀ (acc : Except String PyDictJ × CallLog) (ns : PyDictJ), acc.1 = .ok ns →
      ∃ ns2,
        (rids.foldl
          (fun (acc2 : Except String PyDictJ × CallLog) rid =>
            match acc2.1 with
            | .error _ => acc2
            | .ok names => resolveOne gw obj rid names acc2.2) acc).1
          = .ok ns2
  | [], _, acc, ns, hacc => ⟨ns, by simpa using hacc⟩
  | rid :: rids, hh, acc, ns, hacc => by
    simp only [List.foldl_cons]
    obtain ⟨ns1, hns1⟩ := resolveOne_fst_ok gw obj rid ns acc.2 (hh rid (by simp))
    have step : (match acc.1 with
        | .error _ => acc
        | .ok names => resolveOne gw obj rid names acc.2)
        = resolveOne gw obj rid ns acc.2 := by rw [hacc]
    rw [step]
    exact foldRids_fst_ok gw obj rids (fun r hr => hh r (by simp [hr])) _ ns1 hns1

theorem foldGroups_fail (gw : Gateway) (hgw : ∀ c, ∃ m, gw c = .error m) :
    ∀ (groups : List (JVal × List JVal)),
      (∀ grp ∈ groups, ∀ r ∈ grp.2, r.hashable = true) →
    ∀ (acc : Except String PyDictJ × CallLog) (ns : PyDictJ), acc.1 = .ok ns →
      (groups.foldl
        (fun (acc : Except String PyDictJ × CallLog) grp =>
          grp.2.foldl
            (fun (acc2 : Except String PyDictJ × CallLog) rid =>
              match acc2.1 with
              | .error _ => acc2
              | .ok names => resolveOne gw grp.1 rid names acc2.2)
            acc) acc).1
        = .ok (groups.foldl
            (fun n grp => grp.2.foldl (fun n2 r => pyStoreJ n2 r r) n) ns)
  | [], _, acc, ns, hacc => by simpa using hacc
  | grp :: groups, hh, acc, ns, hacc => by
    simp only [List.foldl_cons]
    exact foldGroups_fail gw hgw groups
      (fun g hg r hr => hh g (by simp [hg]) r hr) _ _
      (foldRids_fail gw hgw grp.1 grp.2 (fun r hr => hh grp (by simp) r hr) acc ns hacc)

theorem foldGroups_fst_ok (gw : Gateway) :
    ∀ (groups : List (JVal × List JVal)),
      (∀ grp ∈ groups, ∀ r ∈ grp.2, r.hashable = true) →
    ∀ (acc : Except String PyDictJ × CallLog) (ns : PyDictJ), acc.1 = .ok ns →
      ∃ ns2,
        (groups.foldl
          (fun (acc : Except String PyDictJ × CallLog) grp =>
            grp.2.foldl
              (fun (acc2 : Except String PyDictJ × CallLog) rid =>
                match acc2.1 with
                | .error _ => acc2
                | .ok names => resolveOne gw grp.1 rid names acc2.2)
              acc) acc).1
          = .ok ns2
  | [], _, acc, ns, hacc => ⟨ns, by simpa using hacc⟩
  | grp :: groups, hh, acc, ns, hacc => by
    simp only [List.foldl_cons]
    obtain ⟨ns1, hns1⟩ :=
      foldRids_fst_ok gw grp.1 grp.2 (fun r hr => hh grp (by simp) r hr) acc ns hacc
    exact foldGroups_fst_ok gw groups
      (fun g hg r hr => hh g (by simp [hg]) r hr) _ ns1 hns1

theorem foldRids_pure_lookup :
    ∀ (rids : List JVal) (ns : PyDictJ) (r : JVal),
      (r ∈ rids ∨ pyFindJ ns r = some r) →
      pyFindJ (rids.foldl (fun n2 rid => pyStoreJ n2 rid rid) ns) r = some r
  | [], ns, r, h => by
    rcases h with h | h
    · simp at h
    · exact h
  | rid :: rids, ns, r, h => by
    simp only [List.foldl_cons]
    apply foldRids_pure_lookup rids (pyStoreJ ns rid rid) r
    rcases h with h | h
    · rcases List.mem_cons.mp h with h | h
      · subst h
        exact .inr (pyFindJ_storeJ_self ns r r)
      · exact .inl h
    · right
      by_cases hk : rid = r
      · subst hk
        exact pyFindJ_storeJ_self ns rid rid
      · rw [pyFindJ_storeJ_ne ns rid r _ hk]
        exact h

theorem foldGroups_pure_lookup :
    ∀ (groups : List (JVal × List JVal)) (ns : PyDictJ) (r : JVal),
      ((∃ grp ∈ groups, r ∈ grp.2) ∨ pyFindJ ns r = some r) →
      pyFindJ
        (groups.foldl (fun n grp => grp.2.foldl (fun n2 rid => pyStoreJ n2 rid rid) n) ns)
        r = some r
  | [], ns, r, h => by
    rcases h with h | h
    · simp at h
    · exact h
  | grp :: groups, ns, r, h => by
    simp only [List.foldl_cons]
    apply foldGroups_pure_lookup groups _ r
    rcases h with ⟨grp', hg', hr'⟩ | h
    · rcases List.mem_cons.mp hg' with hg | hg
      · exact .inr (foldRids_pure_lookup grp.2 ns r (.inl (hg ▸ hr')))
      · exact .inl ⟨grp', hg, hr'⟩
    · exact .inr (foldRids_pure_lookup grp.2 ns r (.inr h))

/-- C7: (i) on a batch of entry dicts whose truthy parent identifiers
are hashable (the batches that pass the grouping loop — a truthy
list- or dict-valued id raises `TypeError` there, before any lookup),
`_resolve_parent_names` never fails as a whole, whatever the gateway
does; (ii) whenever resolution returns at all and every record lookup
fails, every entry's truthy parent record id ends up mapped to itself
in the resolved-name dict; (iii) the full `query_list_entries` pipeline
on a two-entry batch whose second lookup fails still includes both
entries in the output, the failed one displaying its raw parent record
id in place of a name; (iv) the hashability hypothesis of (i) is tight:
a batch with a truthy list-valued parent record id raises `TypeError` in
the grouping loop, outside any `try`, failing the whole batch before a
single lookup is issued. -/
theorem c7_partial_failure_tolerance :
    (∀ (gw : Gateway) (entries : List JVal) (log : CallLog),
        (∀ e ∈ entries, e.isObj = true) →
        entriesResolvable entries →
        ∃ names log', _resolve_parent_names gw entries log = (.ok names, log'))
    ∧ (∀ (gw : Gateway), (∀ c, ∃ m, gw c = .error m) →
        ∀ (entries : List JVal) (log : CallLog) (names : PyDictJ) (log' : CallLog),
          _resolve_parent_names gw entries log = (.ok names, log') →
          ∀ fs, (JVal.obj fs) ∈ entries →
            (pyGet fs "parent_object" (.str "")).truthy = true →
            (pyGet fs "parent_record_id" (.str "")).truthy = true →
            pyLookupJ names (pyGet fs "parent_record_id" (.str ""))
              = .ok (some (pyGet fs "parent_record_id" (.str ""))))
    ∧ _query_entries [("list_id", .str "sales")] gwDemo []
        = (.ok ("List " ++ sqc ++ "sales" ++ sqc ++ " (2 entries):\n1. Acme\n2. r2"),
           [⟨.post, "/lists/sales/entries/query", [], .obj [("limit", .num 50)]⟩,
            ⟨.get, "/objects/companies/records/r1", [], .null⟩,
            ⟨.get, "/objects/companies/records/r2", [], .null⟩])
    ∧ _resolve_parent_names gwAcme [entryBadRid] []
        = (.error "TypeError: unhashable type", []) := by
  refine ⟨?_, ?_, by rfl, by rfl⟩
  · intro gw entries log h hres
    unfold _resolve_parent_names
    obtain ⟨gr, hgr⟩ := groupEntries_ok [] entries [] h hres
    rw [hgr]
    have hhash : ∀ grp ∈ gr, ∀ r ∈ grp.2, r.hashable = true :=
      groupEntries_rids_hashable entries [] gr hgr (by simp)
    obtain ⟨ns2, hns2⟩ := foldGroups_fst_ok gw gr hhash (.ok [], log) [] rfl
    exact ⟨ns2, _, Prod.ext hns2 rfl⟩
  · intro gw hgw entries log names log' hresq fs hmem ho hr
    unfold _resolve_parent_names at hresq
    cases hgr : groupEntries [] [] entries with
    | error e =>
      rw [hgr] at hresq
      cases hresq
    | ok gr =>
      rw [hgr] at hresq
      have hhash : ∀ grp ∈ gr, ∀ r ∈ grp.2, r.hashable = true :=
        groupEntries_rids_hashable entries [] gr hgr (by simp)
      obtain ⟨grp, hgrp, hridmem⟩ := groupEntries_mem entries [] gr hgr fs hmem ho hr
      have hridhash : (pyGet fs "parent_record_id" (.str "")).hashable = true :=
        hhash grp hgrp _ hridmem
      have h1 := foldGroups_fail gw hgw gr hhash (.ok [], log) [] rfl
      have h2 : (Except.ok names : Except String PyDictJ)
          = .ok (gr.foldl (fun n grp => grp.2.foldl (fun n2 r => pyStoreJ n2 r r) n) []) := by
        rw [← h1]
        exact (congrArg Prod.fst hresq).symm
      rw [pyLookupJ_ok names _ hridhash]
      rw [show names
          = gr.foldl (fun n grp => grp.2.foldl (fun n2 r => pyStoreJ n2 r r) n) [] from
        by injection h2]
      rw [foldGroups_pure_lookup gr [] _ (.inl ⟨grp, hgrp, hridmem⟩)]

/-- C7 witness: a single entry whose lookup fails resolves without
failing the batch, mapping the raw id `"r1"` to itself. -/
theorem c7_partial_failure_tolerance_witness :
    pyLookupJ [(JVal.str "r1", JVal.str "r1")] (.str "r1") = .ok (some (.str "r1"))
    ∧ ∃ names log', _resolve_parent_names gwFail [entryR1] [] = (.ok names, log') :=
  ⟨c7_partial_failure_tolerance.2.1 gwFail
      (fun _ => ⟨"HTTP 500: Internal Server Error", rfl⟩)
      [entryR1] [] [(JVal.str "r1", JVal.str "r1")]
      [⟨.get, "/objects/companies/records/r1", [], .null⟩] rfl
      [("parent_object", .str "companies"), ("parent_record_id", .str "r1")]
      (by simp [entryR1]) rfl rfl,
   c7_partial_failure_tolerance.1 gwFail [entryR1] []
      (by simp [entryR1, JVal.isObj])
      (by
        intro fs hfs ht1 ht2
        simp [entryR1] at hfs
        subst hfs
        exact ⟨rfl, rfl⟩)⟩
